import Mathlib

/-! TCP two-way chat: frame codec, handshake and turn-taking loop.

A shallow embedding of `TwoWayServer/TwoWayMesgServer.c` and
`TwoWayServer/TwoWayMesgClient.c`.

* Bytes are natural numbers; the memory an argument points to is the list of the
  bytes stored from that address on.
* `int`, `int32_t`, `size_t` and `time_t` are integers reduced explicitly
  (LP64: 32-bit `int`, 64-bit `size_t` and `time_t`); multi-byte header fields use
  the little-endian layout of the hosts the programs are built for.
* A process is a tree of system calls (`Proc`): every call that receives something
  from the outside (`read`, `write`, `fgets`, `time`) continues with whatever the
  outside answers.  The same tree is run against a scripted environment (any
  sequence of answers), against a reliable byte stream, and back-to-back against
  another process.
* Statements about every run of a program are proved through `AllRuns`, which follows the
  tree of calls and covers every answer at every call; `AllRuns.run` carries them over
  to the runs against scripted environments.
-/

namespace TCPChat

/-! ## Constants of both translation units -/

def MAX_MSG_LEN : Nat := 1023
def MSG_BUF_LEN : Nat := 1024
def MSG_HEADER_LEN : Nat := 12
def MSGLEN_HDRFIELD_OFFSET : Nat := 8
def DATA_BUFFER_LEN : Nat := 1036

/-! ## Machine integers -/

/-- Conversion of an integer value to a 32-bit two's complement `int`. -/
def toInt32 (v : Int) : Int := (v + 2147483648) % 4294967296 - 2147483648

/-- Conversion of an integer value to `size_t` (64 bits). -/
def toSizeT (v : Int) : Nat := (v % 18446744073709551616).toNat

/-- The four bytes an `int32_t` store leaves in memory. -/
def storeInt32 (v : Int) : List Nat :=
  let u := (v % 4294967296).toNat
  [u % 256, u / 256 % 256, u / 65536 % 256, u / 16777216 % 256]

/-- The eight bytes a `time_t` store leaves in memory. -/
def storeTime (t : Int) : List Nat :=
  let u := (t % 18446744073709551616).toNat
  [u % 256, u / 256 % 256, u / 65536 % 256, u / 16777216 % 256,
   u / 4294967296 % 256, u / 1099511627776 % 256, u / 281474976710656 % 256,
   u / 72057594037927936 % 256]

/-- The `int32_t` loaded from four bytes of memory. -/
def loadInt32 (bs : List Nat) : Int :=
  toInt32 (Int.ofNat (bs.getD 0 0 + 256 * bs.getD 1 0 + 65536 * bs.getD 2 0
    + 16777216 * bs.getD 3 0))

/-- The `time_t` loaded from eight bytes of memory. -/
def loadTime (bs : List Nat) : Int :=
  let u := bs.getD 0 0 + 256 * bs.getD 1 0 + 65536 * bs.getD 2 0 + 16777216 * bs.getD 3 0
    + 4294967296 * bs.getD 4 0 + 1099511627776 * bs.getD 5 0
    + 281474976710656 * bs.getD 6 0 + 72057594037927936 * bs.getD 7 0
  (Int.ofNat u + 9223372036854775808) % 18446744073709551616 - 9223372036854775808

/-! ## Memory -/

/-- The `n` bytes of `buf` from offset `off` on. -/
def load (buf : List Nat) (off n : Nat) : List Nat := (buf.drop off).take n

/-- The buffer after `bs` has been stored at offset `off`.  Bytes that would land
behind the end of the buffer are left out. -/
def store (buf : List Nat) (off : Nat) (bs : List Nat) : List Nat :=
  buf.take off ++ bs.take (buf.length - off) ++ buf.drop (off + bs.length)

/-- Result of `memset(buf, 0, n)` on a buffer of at least `n` bytes. -/
def memset0 (buf : List Nat) (n : Nat) : List Nat :=
  List.replicate (min n buf.length) 0 ++ buf.drop n

/-- Value of `strlen` on the memory `mem`: the number of bytes before the first NUL. -/
def strlen : List Nat → Nat
  | [] => 0
  | c :: cs => if c = 0 then 0 else strlen cs + 1

/-- The C string stored in `mem`: the bytes before the first NUL. -/
def cstr : List Nat → List Nat
  | [] => []
  | c :: cs => if c = 0 then [] else c :: cstr cs

/-! ## Port validation (`validate_portnumber`, identical in both programs) -/

def LONG_MAX : Int := 9223372036854775807
def LONG_MIN : Int := -9223372036854775808

def isdigit (c : Nat) : Bool := decide (48 ≤ c) && decide (c ≤ 57)

def isspace (c : Nat) : Bool := decide (c = 32) || (decide (9 ≤ c) && decide (c ≤ 13))

/-- Decimal accumulation over the leading digits of `s`, starting from `acc`. -/
def digitsVal : List Nat → Nat → Nat
  | [], acc => acc
  | c :: cs, acc => if isdigit c then digitsVal cs (acc * 10 + (c - 48)) else acc

/-- The libc function `strtol(s, NULL, 10)`: optional white space, optional sign,
decimal digits, the result clamped to the range of `long`. -/
def strtol (s : List Nat) : Int :=
  match s.dropWhile isspace with
  | 45 :: r => max (-(Int.ofNat (digitsVal r 0))) LONG_MIN
  | 43 :: r => min (Int.ofNat (digitsVal r 0)) LONG_MAX
  | r => min (Int.ofNat (digitsVal r 0)) LONG_MAX

/-- The libc function `atoi`, which is `(int) strtol(s, NULL, 10)`. -/
def atoi (s : List Nat) : Int := toInt32 (strtol s)

/-- The scan of `validate_portnumber`: the first byte before the terminating NUL
that is not a decimal digit, if there is one. -/
def firstNonDigit : List Nat → Option Nat
  | [] => none
  | c :: cs => if c = 0 then none else if c < 48 ∨ c > 57 then some c else firstNonDigit cs

/-- Result of `validate_portnumber`: the process ends with exit status `status` and
one of the two diagnostics, or the function returns `i`. -/
inductive PortResult where
  /-- The call `errprintf_and_exit` in the scan: the argument holds the byte `c`. -/
  | exitNonNumeric (status : Int) (c : Nat)
  /-- The call `errprintf_and_exit` behind `atoi`: `i` is outside the range. -/
  | exitOutOfRange (status : Int) (i : Int)
  | ret (i : Int)
  deriving DecidableEq, Repr

/-- The function `validate_portnumber(port_str)`; `port_str` is the memory of the
argument, read up to its first NUL (or its end). -/
def validate_portnumber (port_str : List Nat) : PortResult :=
  match firstNonDigit port_str with
  | some c => .exitNonNumeric 1 c
  | none =>
    let i := atoi port_str
    if i ≤ 1000 ∨ i > 65535 then .exitOutOfRange 1 i else .ret i

/-- The bytes of a text, for writing arguments down. -/
def bytesOf (s : String) : List Nat := s.toList.map Char.toNat

/-- The number a string of decimal digits denotes. -/
def decimalValue (s : List Nat) : Nat := s.foldl (fun a c => a * 10 + (c - 48)) 0

/-! ## Processes as trees of system calls -/

/-- What `read` hands back: failure, or the bytes it delivered. -/
inductive ReadRes where
  | fail
  | data (bs : List Nat)
  deriving DecidableEq, Repr

/-- What the outside does with a `write`: failure, or room for `k` bytes. -/
inductive WriteRes where
  | fail
  | accepted (k : Nat)
  deriving DecidableEq, Repr

/-- A `read` never delivers more than the `count` it was asked for. -/
def ReadRes.clip : ReadRes → Nat → ReadRes
  | .fail, _ => .fail
  | .data bs, count => .data (bs.take count)

/-- The return value of `read`. -/
def ReadRes.ret : ReadRes → Int
  | .fail => -1
  | .data bs => Int.ofNat bs.length

/-- The bytes `read` left in the destination buffer. -/
def ReadRes.bytes : ReadRes → List Nat
  | .fail => []
  | .data bs => bs

/-- The return value of `write` for a request of `count` bytes. -/
def WriteRes.ret : WriteRes → Nat → Int
  | .fail, _ => -1
  | .accepted k, count => Int.ofNat (min k count)

/-- The functions that send or receive one frame. -/
inductive Fn where
  | send_display_name
  | receive_client_display_name
  | receive_server_display_name
  | prompt_and_message_client
  | receive_client_message
  | prompt_and_send_msg
  | receive_msg
  deriving DecidableEq, Repr

/-- The texts the programs print, with the values they are formatted with. -/
inductive Msg where
  /-- The warning `Display name too large ... Truncating ...` on stderr. -/
  | truncation (len : Int)
  /-- The error `Failed to send display name ...`. -/
  | sendNameFailed
  /-- The error `... unexpectedly disconnected during display name exchange.` -/
  | goneInExchange
  /-- The error `%s (server) unexpectedly during display name exchange.` -/
  | goneInExchangeNamed (name : List Nat)
  /-- The error `... failure to read ... during ... data exchange`. -/
  | receiveNameFailed
  /-- The line `Info exchange complete: ... sent display name, %s, at %s`. -/
  | infoExchangeComplete (name : List Nat) (timestamp : Int)
  /-- The line `Waiting for 1st message from client...`. -/
  | waitingFirst
  /-- The prompt `Message > `. -/
  | prompt
  /-- The line `Waiting for response...`. -/
  | waitingResponse
  /-- A received message: time, name of the peer, text. -/
  | chatLine (timestamp : Int) (name text : List Nat)
  /-- The errors `Unexpected failure to read from client socket ...` (server) and
  `Failed to write to server connection socket.` (client). -/
  | sessionFailed
  /-- The line `%s disconnected.`. -/
  | disconnected (name : List Nat)
  deriving DecidableEq, Repr

/-- Effects that need no answer from the outside. -/
inductive Act where
  /-- Entry into one of the frame functions (bookkeeping only, no effect). -/
  | call (f : Fn)
  | print (m : Msg)
  | malloc (size : Nat)
  | free (p : List Nat)
  | close (fd : Int)
  deriving DecidableEq, Repr

/-- A process: what it does next, and how it goes on with the answer. -/
inductive Proc (α : Type) : Type where
  /-- Return from the function with a value. -/
  | ret (a : α)
  /-- The call `exit(code)`. -/
  | exit (code : Int)
  /-- The loop goes on past the number of iterations that were unrolled. -/
  | spin
  | act (a : Act) (k : Proc α)
  /-- The call `read(fd, buf, count)`. -/
  | read (fd : Int) (count : Nat) (k : ReadRes → Proc α)
  /-- The call `write(fd, buf, count)`; `data` are the bytes stored at `buf`. -/
  | write (fd : Int) (data : List Nat) (count : Nat) (k : Int → Proc α)
  /-- The call `fgets(s, size, stdin)`: `none` is a `NULL` result. -/
  | fgets (size : Nat) (k : Option (List Nat) → Proc α)
  /-- The call `time(&t)`. -/
  | time (k : Int → Proc α)

namespace Proc

/-- Sequential composition. -/
def bind {α β : Type} : Proc α → (α → Proc β) → Proc β
  | .ret a, f => f a
  | .exit c, _ => .exit c
  | .spin, _ => .spin
  | .act a k, f => .act a (bind k f)
  | .read fd n k, f => .read fd n (fun r => bind (k r) f)
  | .write fd d n k, f => .write fd d n (fun r => bind (k r) f)
  | .fgets n k, f => .fgets n (fun r => bind (k r) f)
  | .time k, f => .time (fun t => bind (k t) f)

instance : Monad Proc where
  pure := Proc.ret
  bind := Proc.bind

end Proc

def sys_read (fd : Int) (count : Nat) : Proc ReadRes := .read fd count .ret

def sys_write (fd : Int) (data : List Nat) (count : Nat) : Proc Int := .write fd data count .ret

def sys_fgets (size : Nat) : Proc (Option (List Nat)) := .fgets size .ret

def sys_time : Proc Int := .time .ret

def emit (a : Act) : Proc Unit := .act a (.ret ())

/-- The function `errprintf_and_exit(fmt, exit_val, ...)`: print the diagnostic on
stderr, then `exit(exit_val)`. -/
def errprintf_and_exit {α : Type} (fmt : Msg) (exit_val : Int) : Proc α :=
  .act (.print fmt) (.exit exit_val)

/-! ## The session state both programs keep for teardown -/

/-- The globals `client_name` and `client_sockfd` of the server: the name is `none`
for `NULL`, else the bytes of the allocation. -/
structure Globals where
  client_name : Option (List Nat)
  client_sockfd : Int
  deriving DecidableEq, Repr

/-- The function `close_dynamic_assets()` of the server. -/
def close_dynamic_assets (g : Globals) : Proc Globals := do
  let g ← if (-1 : Int) ≠ g.client_sockfd then do
      emit (.close g.client_sockfd)
      pure { g with client_sockfd := -1 }
    else pure g
  match g.client_name with
  | some p => do
      emit (.free p)
      pure { g with client_name := none }
  | none => pure g

/-- The twelve header bytes after `header[MSG_HEADER_LEN] = {0}`, the store of `len`
through the `int32_t` pointer at offset 8 and `time()` through the pointer at 0. -/
def mkHeader (len t : Int) : List Nat :=
  store (store (List.replicate MSG_HEADER_LEN 0) MSGLEN_HDRFIELD_OFFSET (storeInt32 len)) 0
    (storeTime t)

namespace Server

/-- The server's `send_display_name(sock_fd, name, len)`. -/
def send_display_name (sock_fd : Int) (name : List Nat) (len : Int) : Proc Unit := do
  emit (.call .send_display_name)
  let len ← if len > Int.ofNat MAX_MSG_LEN then do
      emit (.print (.truncation len))
      pure (Int.ofNat MAX_MSG_LEN)
    else pure len
  let t ← sys_time
  let header := mkHeader len t
  let outcome := toInt32 (← sys_write sock_fd header MSG_HEADER_LEN)
  if 0 > outcome then errprintf_and_exit .sendNameFailed 1
  else if outcome = 0 then errprintf_and_exit .goneInExchange 1
  else
    let outcome := toInt32 (← sys_write sock_fd (load name 0 (toSizeT len)) (toSizeT len))
    if 0 > outcome then errprintf_and_exit .sendNameFailed 1
    else if outcome = 0 then errprintf_and_exit .goneInExchange 1
    else pure ()

/-- The server's `receive_client_display_name(client_sfd, databuf)`: the returned
allocation and the data buffer it leaves behind. -/
def receive_client_display_name (client_sfd : Int) (databuf : List Nat) :
    Proc (List Nat × List Nat) := do
  emit (.call .receive_client_display_name)
  let databuf := memset0 databuf DATA_BUFFER_LEN
  let r ← sys_read client_sfd MSG_HEADER_LEN
  let databuf := store databuf 0 r.bytes
  let outcome := toInt32 r.ret
  if 0 > outcome then errprintf_and_exit .receiveNameFailed 1
  else if outcome = 0 then do
    emit (.close client_sfd)
    errprintf_and_exit .goneInExchange 1
  else
    let len := loadInt32 (load databuf MSGLEN_HDRFIELD_OFFSET 4)
    let r ← sys_read client_sfd (toSizeT len)
    let databuf := store databuf MSG_HEADER_LEN r.bytes
    let outcome := toInt32 r.ret
    if 0 > outcome then errprintf_and_exit .receiveNameFailed 1
    else if outcome = 0 then do
      emit (.close client_sfd)
      errprintf_and_exit .goneInExchange 1
    else do
      emit (.malloc (toSizeT (toInt32 (len + 1))))
      let ret := load databuf MSG_HEADER_LEN (toSizeT len) ++ [0]
      pure (ret, databuf)

/-- The server's `prompt_and_message_client(client_sfd, databuf)`: the value returned
and the data buffer it leaves behind. -/
def prompt_and_message_client (client_sfd : Int) (databuf : List Nat) :
    Proc (Int × List Nat) := do
  emit (.call .prompt_and_message_client)
  let databuf := memset0 databuf DATA_BUFFER_LEN
  emit (.print .prompt)
  let databuf := match (← sys_fgets MAX_MSG_LEN) with
    | some line => store databuf MSG_HEADER_LEN (line ++ [0])
    | none => databuf
  let len := toInt32 (Int.ofNat (strlen (databuf.drop MSG_HEADER_LEN)))
  let databuf := store databuf MSGLEN_HDRFIELD_OFFSET (storeInt32 len)
  let t ← sys_time
  let databuf := store databuf 0 (storeTime t)
  let count := toSizeT (Int.ofNat MSG_HEADER_LEN + len)
  let outcome := toInt32 (← sys_write client_sfd (load databuf 0 count) count)
  pure (outcome, databuf)

/-- The server's `receive_client_message(client_sfd, databuf)`: the value returned
and the data buffer it leaves behind. -/
def receive_client_message (client_sfd : Int) (databuf : List Nat) :
    Proc (Int × List Nat) := do
  emit (.call .receive_client_message)
  let databuf := memset0 databuf DATA_BUFFER_LEN
  let r ← sys_read client_sfd MSG_HEADER_LEN
  let databuf := store databuf 0 r.bytes
  let outcome := toInt32 r.ret
  if 0 ≥ outcome then pure (outcome, databuf)
  else
    let r ← sys_read client_sfd (toSizeT (loadInt32 (load databuf MSGLEN_HDRFIELD_OFFSET 4)))
    pure (toInt32 r.ret, store databuf MSG_HEADER_LEN r.bytes)

/-- The label `UNEXPECTED_ERR` of `main`. -/
def unexpected_err (client_sfd : Int) (g : Globals) : Proc Int := do
  emit (.close client_sfd)
  emit (.free (g.client_name.getD []))
  errprintf_and_exit .sessionFailed 1

/-- The label `DISCONNECTED_CLIENT` of `main`, the `break` and the statements behind
the loop up to `return 0`. -/
def disconnected_client (client_sfd : Int) (g : Globals) : Proc Int := do
  emit (.print (.disconnected (cstr (g.client_name.getD []))))
  let g ← if (-1 : Int) ≠ g.client_sockfd then do
      emit (.close client_sfd)
      pure { g with client_sockfd := -1 }
    else pure g
  match g.client_name with
  | some p => do
      emit (.free p)
      pure 0
  | none => pure 0

/-- The `while (1)` loop of the server's `main`, unrolled `fuel` times. -/
def loop : Nat → Int → Globals → List Nat → Proc Int
  | 0, _, _, _ => .spin
  | fuel + 1, client_sfd, g, databuf => do
    let (outcome, databuf) ← receive_client_message client_sfd databuf
    if 0 > outcome then unexpected_err client_sfd g
    else if outcome = 0 then disconnected_client client_sfd g
    else do
      emit (.print (.chatLine (loadTime (load databuf 0 8)) (cstr (g.client_name.getD []))
        (cstr (databuf.drop MSG_HEADER_LEN))))
      let (outcome, databuf) ← prompt_and_message_client client_sfd databuf
      if 0 > outcome then unexpected_err client_sfd g
      else if outcome = 0 then disconnected_client client_sfd g
      else do
        emit (.print .waitingResponse)
        loop fuel client_sfd g databuf

/-- The display name exchange of the server's `main`: the two calls
`send_display_name(client_sfd, argv[2], server_namelen)` and
`client_name = receive_client_display_name(client_sfd, databuf)`. -/
def handshake (argv2 : List Nat) (client_sfd : Int) (databuf : List Nat) :
    Proc (Globals × List Nat) := do
  let server_namelen := toInt32 (Int.ofNat (strlen argv2))
  send_display_name client_sfd argv2 server_namelen
  let (ret, databuf) ← receive_client_display_name client_sfd databuf
  pure ({ client_name := some ret, client_sockfd := client_sfd }, databuf)

/-- The server's `main` from the accepted connection on: `argv2` is the memory of
`argv[2]`, `client_sfd` the descriptor `wait_for_and_accept_client` returned and
`databuf` the data buffer as `inet_ntop` left it. -/
def session (fuel : Nat) (argv2 : List Nat) (client_sfd : Int) (databuf : List Nat) :
    Proc Int := do
  let (g, databuf) ← handshake argv2 client_sfd databuf
  emit (.print (.infoExchangeComplete (cstr (databuf.drop MSG_HEADER_LEN))
    (loadTime (load databuf 0 8))))
  emit (.print .waitingFirst)
  loop fuel client_sfd g databuf

end Server

namespace Client

/-- The client's `receive_msg(sfd, databuf)`: the value returned and the data buffer
it leaves behind. -/
def receive_msg (sfd : Int) (databuf : List Nat) : Proc (Int × List Nat) := do
  emit (.call .receive_msg)
  let databuf := memset0 databuf DATA_BUFFER_LEN
  let r ← sys_read sfd MSG_HEADER_LEN
  let databuf := store databuf 0 r.bytes
  let outcome := toInt32 r.ret
  if 0 ≥ outcome then pure (outcome, databuf)
  else
    let len := loadInt32 (load databuf MSGLEN_HDRFIELD_OFFSET 4)
    let r ← sys_read sfd (toSizeT len)
    pure (toInt32 r.ret, store databuf MSG_HEADER_LEN r.bytes)

/-- The client's `send_display_name(sfd, name, len, server_display_name)`. -/
def send_display_name (sfd : Int) (name : List Nat) (len : Int)
    (server_display_name : List Nat) : Proc Unit := do
  emit (.call .send_display_name)
  let len := if 0 > len then toInt32 (Int.ofNat (strlen name)) else len
  let len ← if len > Int.ofNat MAX_MSG_LEN then do
      emit (.print (.truncation len))
      pure (Int.ofNat MAX_MSG_LEN)
    else pure len
  let t ← sys_time
  let header := mkHeader len t
  let outcome := toInt32 (← sys_write sfd header MSG_HEADER_LEN)
  if 0 > outcome then do
    emit (.close sfd)
    errprintf_and_exit .sendNameFailed 1
  else if outcome = 0 then do
    emit (.print (.goneInExchangeNamed (cstr server_display_name)))
    emit (.close sfd)
    emit (.free server_display_name)
    .exit 1
  else
    let outcome := toInt32 (← sys_write sfd (load name 0 (toSizeT len)) (toSizeT len))
    if 0 > outcome then do
      emit (.close sfd)
      errprintf_and_exit .sendNameFailed 1
    else if outcome = 0 then do
      emit (.print (.goneInExchangeNamed (cstr server_display_name)))
      emit (.close sfd)
      emit (.free server_display_name)
      .exit 1
    else pure ()

/-- The client's `receive_server_display_name(sfd, databuf)`: the returned allocation
and the data buffer it leaves behind. -/
def receive_server_display_name (sfd : Int) (databuf : List Nat) :
    Proc (List Nat × List Nat) := do
  emit (.call .receive_server_display_name)
  let r ← sys_read sfd MSG_HEADER_LEN
  let databuf := store databuf 0 r.bytes
  let outcome := toInt32 r.ret
  if 0 > outcome then do
    emit (.close sfd)
    errprintf_and_exit .receiveNameFailed 1
  else if outcome = 0 then do
    emit (.close sfd)
    errprintf_and_exit .goneInExchange 1
  else
    let r ← sys_read sfd MSG_BUF_LEN
    let databuf := store databuf MSG_HEADER_LEN r.bytes
    let len := loadInt32 (load databuf MSGLEN_HDRFIELD_OFFSET 4)
    emit (.malloc (toSizeT (toInt32 (1 + len))))
    let ret := load databuf MSG_HEADER_LEN (toSizeT len) ++ [0]
    pure (ret, databuf)

/-- The client's `prompt_and_send_msg(sfd, buf)`: the value returned and the data
buffer it leaves behind. -/
def prompt_and_send_msg (sfd : Int) (buf : List Nat) : Proc (Int × List Nat) := do
  emit (.call .prompt_and_send_msg)
  let buf := memset0 buf DATA_BUFFER_LEN
  emit (.print .prompt)
  let buf := match (← sys_fgets MAX_MSG_LEN) with
    | some line => store buf MSG_HEADER_LEN (line ++ [0])
    | none => buf
  let len := toInt32 (Int.ofNat (strlen (buf.drop MSG_HEADER_LEN)))
  let buf := store buf MSGLEN_HDRFIELD_OFFSET (storeInt32 len)
  let t ← sys_time
  let buf := store buf 0 (storeTime t)
  let count := toSizeT (Int.ofNat MSG_HEADER_LEN + len)
  let outcome := toInt32 (← sys_write sfd (load buf 0 count) count)
  pure (outcome, buf)

/-- The label `ERR_WRITE_DISRUPTED` of `main`. -/
def err_write_disrupted (sfd : Int) (server_dispname : List Nat) : Proc Int := do
  emit (.close sfd)
  emit (.free server_dispname)
  errprintf_and_exit .sessionFailed 1

/-- The statements of `main` behind the loop: what a `break` leads to. -/
def after_loop (sfd : Int) (server_dispname : List Nat) : Proc Int := do
  emit (.print (.disconnected (cstr server_dispname)))
  emit (.close sfd)
  emit (.free server_dispname)
  .exit 0

/-- The `while (1)` loop of the client's `main`, unrolled `fuel` times. -/
def loop : Nat → Int → List Nat → List Nat → Proc Int
  | 0, _, _, _ => .spin
  | fuel + 1, sfd, server_dispname, databuf => do
    let (outcome, databuf) ← prompt_and_send_msg sfd databuf
    if 0 > outcome then err_write_disrupted sfd server_dispname
    else if outcome = 0 then after_loop sfd server_dispname
    else do
      emit (.print .waitingResponse)
      let (outcome, databuf) ← receive_msg sfd databuf
      if 0 > outcome then err_write_disrupted sfd server_dispname
      else if outcome = 0 then after_loop sfd server_dispname
      else do
        emit (.print (.chatLine (loadTime (load databuf 0 8)) (cstr server_dispname)
          (cstr (databuf.drop MSG_HEADER_LEN))))
        loop fuel sfd server_dispname databuf

/-- The display name exchange of the client's `main`: the two calls
`server_dispname = receive_server_display_name(sfd, databuf)` and
`send_display_name(sfd, argv[3], dispname_len, server_dispname)`; the value is the
name held, the time stamp decoded in between and the data buffer. -/
def handshake (argv3 : List Nat) (sfd : Int) (databuf : List Nat) :
    Proc (List Nat × Int × List Nat) := do
  let dispname_len := toInt32 (Int.ofNat (strlen argv3))
  let (server_dispname, databuf) ← receive_server_display_name sfd databuf
  let time_obj := loadTime (load databuf 0 8)
  send_display_name sfd argv3 dispname_len server_dispname
  pure (server_dispname, time_obj, databuf)

/-- The client's `main` from the established connection on: `argv3` is the memory of
`argv[3]`, `sfd` the descriptor `establish_connection` returned; the data buffer
starts zeroed. -/
def session (fuel : Nat) (argv3 : List Nat) (sfd : Int) : Proc Int := do
  let (server_dispname, time_obj, databuf) ←
    handshake argv3 sfd (List.replicate DATA_BUFFER_LEN 0)
  emit (.print (.infoExchangeComplete (cstr server_dispname) time_obj))
  loop fuel sfd server_dispname databuf

end Client

/-! ## Running a process -/

/-- One entry of a trace: an effect, or a call together with its answer. -/
inductive Ev where
  | act (a : Act)
  | read (fd : Int) (count : Nat) (res : ReadRes)
  | write (fd : Int) (data : List Nat) (count : Nat) (ret : Int)
  | fgets (size : Nat) (res : Option (List Nat))
  | time (t : Int)
  deriving DecidableEq, Repr

/-- How a run ends. -/
inductive Outcome (α : Type) where
  | returned (a : α)
  | exited (code : Int)
  /-- The process waits in a call that is never answered. -/
  | blocked
  /-- The process is still in its loop after the unrolled iterations. -/
  | running
  deriving DecidableEq, Repr

/-- A run: the trace and how it ends. -/
structure Run (α : Type) where
  trace : List Ev
  outcome : Outcome α
  deriving DecidableEq, Repr

/-- Put an event in front of a run. -/
def Run.cons {α : Type} (e : Ev) (r : Run α) : Run α := ⟨e :: r.trace, r.outcome⟩

/-- A scripted environment: the answers to the successive `read`, `write`, `fgets` and
`time` calls.  `fgets` on an exhausted console is end of file, `read` and `write` on
an exhausted script never return. -/
structure Env where
  reads : List ReadRes
  writes : List WriteRes
  lines : List (List Nat)
  clock : List Int
  deriving Repr

/-- What `fgets(s, size, stdin)` stores of the input that is waiting: at most
`size - 1` bytes; nothing waiting is end of file. -/
def fgetsRes (size : Nat) : List (List Nat) → Option (List Nat)
  | [] => none
  | l :: _ => some (l.take (size - 1))

/-- Run a process against a scripted environment. -/
def run {α : Type} : Proc α → Env → Run α
  | .ret a, _ => ⟨[], .returned a⟩
  | .exit c, _ => ⟨[], .exited c⟩
  | .spin, _ => ⟨[], .running⟩
  | .act a k, env => (run k env).cons (.act a)
  | .read fd n k, env =>
    match env.reads with
    | [] => ⟨[], .blocked⟩
    | r :: rs => (run (k (r.clip n)) { env with reads := rs }).cons (.read fd n (r.clip n))
  | .write fd d n k, env =>
    match env.writes with
    | [] => ⟨[], .blocked⟩
    | w :: ws => (run (k (w.ret n)) { env with writes := ws }).cons (.write fd d n (w.ret n))
  | .fgets n k, env =>
    (run (k (fgetsRes n env.lines)) { env with lines := env.lines.tail }).cons
      (.fgets n (fgetsRes n env.lines))
  | .time k, env =>
    (run (k (env.clock.headD 0)) { env with clock := env.clock.tail }).cons
      (.time (env.clock.headD 0))

/-! ## A reliable byte stream -/

/-- What a process sees of a connection whose stream delivers every requested byte:
the bytes the peer has written and the process has not read yet, whether the peer has
closed its end, the console input and the clock. -/
structure Chan where
  inbox : List Nat
  eof : Bool
  lines : List (List Nat)
  clock : List Int
  deriving DecidableEq, Repr

/-- A process advanced as far as it can go on what has arrived. -/
structure Adv (α : Type) where
  trace : List Ev
  /-- The bytes written to the peer, in order. -/
  sent : List Nat
  /-- What is left to do: a `read` when the process waits for the peer. -/
  next : Proc α
  chan : Chan

/-- Put an event in front of an advance. -/
def Adv.cons {α : Type} (e : Ev) (a : Adv α) : Adv α := { a with trace := e :: a.trace }

/-- Put written bytes in front of an advance. -/
def Adv.send {α : Type} (d : List Nat) (a : Adv α) : Adv α := { a with sent := d ++ a.sent }

/-- Run a process on a reliable stream until it ends or has to wait for the peer.
A `read` of `n` bytes returns at once with the first `n` bytes that have arrived (all of
them when fewer have), with 0 when `n` is 0 or the peer has closed, and waits when
nothing has arrived yet; a `write` takes all bytes, and fails with -1 (`EFAULT`),
sending nothing, when the memory it is given does not hold the `n` bytes asked for. -/
def advance {α : Type} : Proc α → Chan → Adv α
  | .ret a, ch => ⟨[], [], .ret a, ch⟩
  | .exit c, ch => ⟨[], [], .exit c, ch⟩
  | .spin, ch => ⟨[], [], .spin, ch⟩
  | .act a k, ch => (advance k ch).cons (.act a)
  | .read fd n k, ch =>
    if n = 0 ∨ ch.inbox ≠ [] ∨ ch.eof = true then
      (advance (k (.data (ch.inbox.take n))) { ch with inbox := ch.inbox.drop n }).cons
        (.read fd n (.data (ch.inbox.take n)))
    else ⟨[], [], .read fd n k, ch⟩
  | .write fd d n k, ch =>
    if n ≤ d.length then
      ((advance (k (Int.ofNat d.length)) ch).send d).cons (.write fd d n (Int.ofNat d.length))
    else (advance (k (-1)) ch).cons (.write fd d n (-1))
  | .fgets n k, ch =>
    (advance (k (fgetsRes n ch.lines)) { ch with lines := ch.lines.tail }).cons
      (.fgets n (fgetsRes n ch.lines))
  | .time k, ch =>
    (advance (k (ch.clock.headD 0)) { ch with clock := ch.clock.tail }).cons
      (.time (ch.clock.headD 0))

/-- How far a process has come. -/
def Proc.outcome {α : Type} : Proc α → Outcome α
  | .ret a => .returned a
  | .exit c => .exited c
  | .spin => .running
  | _ => .blocked

/-- Whether a process has ended; its end of the connection is closed then. -/
def Proc.ended {α : Type} : Proc α → Bool
  | .ret _ => true
  | .exit _ => true
  | _ => false

/-- A responder and an initiator connected back-to-back. -/
structure Link (α β : Type) where
  server : Proc α
  client : Proc β
  /-- Bytes written by the client that the server has not read. -/
  toServer : List Nat
  /-- Bytes written by the server that the client has not read. -/
  toClient : List Nat
  serverLines : List (List Nat)
  clientLines : List (List Nat)
  serverClock : List Int
  clientClock : List Int
  serverTrace : List Ev
  clientTrace : List Ev

/-- One round of the connection: the server runs until it has to wait, then the client
does. -/
def Link.round {α β : Type} (l : Link α β) : Link α β :=
  let a := advance l.server ⟨l.toServer, l.client.ended, l.serverLines, l.serverClock⟩
  let b := advance l.client ⟨l.toClient ++ a.sent, a.next.ended, l.clientLines, l.clientClock⟩
  { server := a.next
    client := b.next
    toServer := a.chan.inbox ++ b.sent
    toClient := b.chan.inbox
    serverLines := a.chan.lines
    clientLines := b.chan.lines
    serverClock := a.chan.clock
    clientClock := b.chan.clock
    serverTrace := l.serverTrace ++ a.trace
    clientTrace := l.clientTrace ++ b.trace }

/-- A fresh connection between two processes. -/
def Link.start {α β : Type} (server : Proc α) (client : Proc β)
    (serverLines clientLines : List (List Nat)) (serverClock clientClock : List Int) :
    Link α β :=
  ⟨server, client, [], [], serverLines, clientLines, serverClock, clientClock, [], []⟩

/-- The socket calls of a trace, in order: `true` for a `write`, `false` for a `read`. -/
def ioOrder : List Ev → List Bool
  | [] => []
  | .write _ _ _ _ :: es => true :: ioOrder es
  | .read _ _ _ :: es => false :: ioOrder es
  | _ :: es => ioOrder es

/-! ## Properties of runs -/

/-- The close and free calls `close_dynamic_assets` makes in the state `g`. -/
def teardownCalls (g : Globals) : List Ev :=
  (if g.client_sockfd = -1 then [] else [Ev.act (.close g.client_sockfd)]) ++
  (match g.client_name with
   | some p => [Ev.act (.free p)]
   | none => [])

/-- The property `Q` holds of the trace and outcome of every run of the process, whatever
the environment answers: at a call that takes an answer, for the run that waits there
forever and for every answer. -/
def AllRuns {α : Type} : Proc α → (List Ev → Outcome α → Prop) → Prop
  | .ret a, Q => Q [] (.returned a)
  | .exit c, Q => Q [] (.exited c)
  | .spin, Q => Q [] .running
  | .act a k, Q => AllRuns k (fun t o => Q (.act a :: t) o)
  | .read fd n k, Q => Q [] .blocked ∧
      ∀ r : ReadRes, AllRuns (k (r.clip n)) (fun t o => Q (.read fd n (r.clip n) :: t) o)
  | .write fd d n k, Q => Q [] .blocked ∧
      ∀ w : WriteRes, AllRuns (k (w.ret n)) (fun t o => Q (.write fd d n (w.ret n) :: t) o)
  | .fgets n k, Q =>
      ∀ ls : List (List Nat),
        AllRuns (k (fgetsRes n ls)) (fun t o => Q (.fgets n (fgetsRes n ls) :: t) o)
  | .time k, Q => ∀ t0 : Int, AllRuns (k t0) (fun t o => Q (.time t0 :: t) o)

/-- What `Q` asks of the runs of `p >>= f`, in terms of a run of `p` with trace `t`. -/
def After {α β : Type} (f : α → Proc β) (Q : List Ev → Outcome β → Prop) (t : List Ev) :
    Outcome α → Prop
  | .returned a => AllRuns (f a) (fun t' o' => Q (t ++ t') o')
  | .exited c => Q t (.exited c)
  | .blocked => Q t .blocked
  | .running => Q t .running

/-- The diagnostics printed through `errprintf_and_exit` or as an error on stderr. -/
def Msg.isError : Msg → Bool
  | .sendNameFailed => true
  | .goneInExchange => true
  | .goneInExchangeNamed _ => true
  | .receiveNameFailed => true
  | .sessionFailed => true
  | _ => false

def Ev.errorPrint : Ev → Bool
  | .act (.print m) => m.isError
  | _ => false

def Ev.disconnectPrint : Ev → Bool
  | .act (.print (.disconnected _)) => true
  | _ => false

/-- The exit status an outcome stands for, when the process has ended. -/
def Outcome.status : Outcome Int → Option Int
  | .returned c => some c
  | .exited c => some c
  | _ => none

/-- The peer name the server holds once its handshake has returned. -/
def Server.heldName : Proc (Globals × List Nat) → Option (List Nat)
  | .ret (g, _) => g.client_name
  | _ => none

/-- The peer name the client holds once its handshake has returned. -/
def Client.heldName : Proc (List Nat × Int × List Nat) → Option (List Nat)
  | .ret (server_dispname, _, _) => some server_dispname
  | _ => none

/-- A session that has ended as a disconnection: it has ended with status 0, has printed
the disconnected line and has printed no error. -/
def EndsAsDisconnect (a : Adv Int) : Prop :=
  a.next.outcome.status = some 0 ∧ a.trace.any Ev.disconnectPrint = true ∧
    a.trace.any Ev.errorPrint = false

/-- What a trace shows of the exchange of frames: the entries into the frame functions
and the socket calls. -/
inductive Step where
  | call (f : Fn)
  | read
  | write
  deriving DecidableEq, Repr

/-- The server receives one message: the header and the text, two reads. -/
def Server.receiveSteps : List Step := [.call .receive_client_message, .read, .read]

/-- The server sends one message: header and text in one write. -/
def Server.sendSteps : List Step := [.call .prompt_and_message_client, .write]

/-- The steps of `n` iterations of the server's loop: receive, then send. -/
def Server.loopSteps : Nat → List Step
  | 0 => []
  | n + 1 => Server.receiveSteps ++ (Server.sendSteps ++ Server.loopSteps n)

/-- The client sends one message: header and text in one write. -/
def Client.sendSteps : List Step := [.call .prompt_and_send_msg, .write]

/-- The client receives one message: the header and the text, two reads. -/
def Client.receiveSteps : List Step := [.call .receive_msg, .read, .read]

/-- The steps of `n` iterations of the client's loop: send, then receive. -/
def Client.loopSteps : Nat → List Step
  | 0 => []
  | n + 1 => Client.sendSteps ++ (Client.receiveSteps ++ Client.loopSteps n)

section Equations

variable {α β : Type}

theorem pure_eq_ret (a : α) : (pure a : Proc α) = Proc.ret a := by
  show Proc.ret a = Proc.ret a
  exact Eq.refl _

theorem bind_ret (a : α) (f : α → Proc β) : (Proc.ret a >>= f) = f a := by
  show Proc.bind (Proc.ret a) f = f a
  rw [Proc.bind]

theorem bind_exit (c : Int) (f : α → Proc β) : ((Proc.exit c : Proc α) >>= f) = Proc.exit c := by
  show Proc.bind (Proc.exit c) f = Proc.exit c
  rw [Proc.bind]

theorem bind_spin (f : α → Proc β) : ((Proc.spin : Proc α) >>= f) = Proc.spin := by
  show Proc.bind Proc.spin f = Proc.spin
  rw [Proc.bind]

theorem bind_act (a : Act) (k : Proc α) (f : α → Proc β) :
    (Proc.act a k >>= f) = Proc.act a (k >>= f) := by
  show Proc.bind (Proc.act a k) f = Proc.act a (Proc.bind k f)
  rw [Proc.bind]

theorem bind_read (fd : Int) (n : Nat) (k : ReadRes → Proc α) (f : α → Proc β) :
    (Proc.read fd n k >>= f) = Proc.read fd n (fun r => k r >>= f) := by
  show Proc.bind (Proc.read fd n k) f = Proc.read fd n (fun r => Proc.bind (k r) f)
  rw [Proc.bind]

theorem bind_write (fd : Int) (d : List Nat) (n : Nat) (k : Int → Proc α) (f : α → Proc β) :
    (Proc.write fd d n k >>= f) = Proc.write fd d n (fun r => k r >>= f) := by
  show Proc.bind (Proc.write fd d n k) f = Proc.write fd d n (fun r => Proc.bind (k r) f)
  rw [Proc.bind]

theorem bind_fgets (n : Nat) (k : Option (List Nat) → Proc α) (f : α → Proc β) :
    (Proc.fgets n k >>= f) = Proc.fgets n (fun r => k r >>= f) := by
  show Proc.bind (Proc.fgets n k) f = Proc.fgets n (fun r => Proc.bind (k r) f)
  rw [Proc.bind]

theorem bind_time (k : Int → Proc α) (f : α → Proc β) :
    (Proc.time k >>= f) = Proc.time (fun r => k r >>= f) := by
  show Proc.bind (Proc.time k) f = Proc.time (fun r => Proc.bind (k r) f)
  rw [Proc.bind]

theorem bind_ite (c : Prop) [Decidable c] (p q : Proc α) (f : α → Proc β) :
    ((if c then p else q) >>= f) = if c then p >>= f else q >>= f := by
  split <;> exact Eq.refl _

theorem run_cons_mk (e : Ev) (t : List Ev) (o : Outcome α) :
    Run.cons e ⟨t, o⟩ = ⟨e :: t, o⟩ := by
  unfold Run.cons
  exact Eq.refl _

theorem run_cons_trace (e : Ev) (r : Run α) : (r.cons e).trace = e :: r.trace := by
  unfold Run.cons
  exact Eq.refl _

theorem run_cons_outcome (e : Ev) (r : Run α) : (r.cons e).outcome = r.outcome := by
  unfold Run.cons
  exact Eq.refl _

theorem run_ret (a : α) (env : Env) : run (Proc.ret a) env = ⟨[], .returned a⟩ := by
  rw [run]

theorem run_exit (c : Int) (env : Env) : run (Proc.exit c : Proc α) env = ⟨[], .exited c⟩ := by
  rw [run]

theorem run_spin (env : Env) : run (Proc.spin : Proc α) env = ⟨[], .running⟩ := by
  rw [run]

theorem run_act (a : Act) (k : Proc α) (env : Env) :
    run (Proc.act a k) env = (run k env).cons (.act a) := by
  rw [run]

theorem run_read_nil (fd : Int) (n : Nat) (k : ReadRes → Proc α) (ws : List WriteRes)
    (ls : List (List Nat)) (cl : List Int) :
    run (Proc.read fd n k) ⟨[], ws, ls, cl⟩ = ⟨[], .blocked⟩ := by
  rw [run]

theorem run_read_cons (fd : Int) (n : Nat) (k : ReadRes → Proc α) (r : ReadRes)
    (rs : List ReadRes) (ws : List WriteRes) (ls : List (List Nat)) (cl : List Int) :
    run (Proc.read fd n k) ⟨r :: rs, ws, ls, cl⟩
      = (run (k (r.clip n)) ⟨rs, ws, ls, cl⟩).cons (.read fd n (r.clip n)) := by
  rw [run]

theorem run_write_nil (fd : Int) (d : List Nat) (n : Nat) (k : Int → Proc α)
    (rs : List ReadRes) (ls : List (List Nat)) (cl : List Int) :
    run (Proc.write fd d n k) ⟨rs, [], ls, cl⟩ = ⟨[], .blocked⟩ := by
  rw [run]

theorem run_write_cons (fd : Int) (d : List Nat) (n : Nat) (k : Int → Proc α) (w : WriteRes)
    (rs : List ReadRes) (ws : List WriteRes) (ls : List (List Nat)) (cl : List Int) :
    run (Proc.write fd d n k) ⟨rs, w :: ws, ls, cl⟩
      = (run (k (w.ret n)) ⟨rs, ws, ls, cl⟩).cons (.write fd d n (w.ret n)) := by
  rw [run]

theorem run_fgets (n : Nat) (k : Option (List Nat) → Proc α) (rs : List ReadRes)
    (ws : List WriteRes) (ls : List (List Nat)) (cl : List Int) :
    run (Proc.fgets n k) ⟨rs, ws, ls, cl⟩
      = (run (k (fgetsRes n ls)) ⟨rs, ws, ls.tail, cl⟩).cons (.fgets n (fgetsRes n ls)) := by
  rw [run]

theorem run_time (k : Int → Proc α) (rs : List ReadRes) (ws : List WriteRes)
    (ls : List (List Nat)) (cl : List Int) :
    run (Proc.time k) ⟨rs, ws, ls, cl⟩
      = (run (k (cl.headD 0)) ⟨rs, ws, ls, cl.tail⟩).cons (.time (cl.headD 0)) := by
  rw [run]

theorem run_ite (c : Prop) [Decidable c] (p q : Proc α) (env : Env) :
    run (if c then p else q) env = if c then run p env else run q env := by
  split <;> exact Eq.refl _

theorem adv_cons_mk (e : Ev) (t : List Ev) (s : List Nat) (n : Proc α) (c : Chan) :
    Adv.cons e ⟨t, s, n, c⟩ = ⟨e :: t, s, n, c⟩ := by
  unfold Adv.cons
  exact Eq.refl _

theorem adv_send_mk (d : List Nat) (t : List Ev) (s : List Nat) (n : Proc α) (c : Chan) :
    Adv.send d ⟨t, s, n, c⟩ = ⟨t, d ++ s, n, c⟩ := by
  unfold Adv.send
  exact Eq.refl _

theorem advance_ret (a : α) (ch : Chan) : advance (Proc.ret a) ch = ⟨[], [], .ret a, ch⟩ := by
  rw [advance]

theorem advance_exit (c : Int) (ch : Chan) :
    advance (Proc.exit c : Proc α) ch = ⟨[], [], .exit c, ch⟩ := by
  rw [advance]

theorem advance_spin (ch : Chan) : advance (Proc.spin : Proc α) ch = ⟨[], [], .spin, ch⟩ := by
  rw [advance]

theorem advance_act (a : Act) (k : Proc α) (ch : Chan) :
    advance (Proc.act a k) ch = (advance k ch).cons (.act a) := by
  rw [advance]

theorem advance_read (fd : Int) (n : Nat) (k : ReadRes → Proc α) (inbox : List Nat)
    (eof : Bool) (ls : List (List Nat)) (cl : List Int)
    (h : n = 0 ∨ inbox ≠ [] ∨ eof = true) :
    advance (Proc.read fd n k) ⟨inbox, eof, ls, cl⟩
      = (advance (k (.data (inbox.take n))) ⟨inbox.drop n, eof, ls, cl⟩).cons
          (.read fd n (.data (inbox.take n))) := by
  rw [advance, if_pos h]

theorem advance_read_wait (fd : Int) (n : Nat) (k : ReadRes → Proc α) (ls : List (List Nat))
    (cl : List Int) (h : n ≠ 0) :
    advance (Proc.read fd n k) ⟨[], false, ls, cl⟩ = ⟨[], [], Proc.read fd n k, ⟨[], false, ls, cl⟩⟩ := by
  rw [advance, if_neg]
  simp [h]

theorem advance_write (fd : Int) (d : List Nat) (n : Nat) (k : Int → Proc α) (ch : Chan)
    (h : n ≤ d.length) :
    advance (Proc.write fd d n k) ch
      = ((advance (k (Int.ofNat d.length)) ch).send d).cons
          (.write fd d n (Int.ofNat d.length)) := by
  rw [advance, if_pos h]

theorem advance_write_fault (fd : Int) (d : List Nat) (n : Nat) (k : Int → Proc α) (ch : Chan)
    (h : d.length < n) :
    advance (Proc.write fd d n k) ch = (advance (k (-1)) ch).cons (.write fd d n (-1)) := by
  rw [advance, if_neg (Nat.not_le.mpr h)]

theorem advance_fgets (n : Nat) (k : Option (List Nat) → Proc α) (inbox : List Nat)
    (eof : Bool) (ls : List (List Nat)) (cl : List Int) :
    advance (Proc.fgets n k) ⟨inbox, eof, ls, cl⟩
      = (advance (k (fgetsRes n ls)) ⟨inbox, eof, ls.tail, cl⟩).cons
          (.fgets n (fgetsRes n ls)) := by
  rw [advance]

theorem advance_time (k : Int → Proc α) (inbox : List Nat) (eof : Bool)
    (ls : List (List Nat)) (cl : List Int) :
    advance (Proc.time k) ⟨inbox, eof, ls, cl⟩
      = (advance (k (cl.headD 0)) ⟨inbox, eof, ls, cl.tail⟩).cons (.time (cl.headD 0)) := by
  rw [advance]

theorem advance_ite (c : Prop) [Decidable c] (p q : Proc α) (ch : Chan) :
    advance (if c then p else q) ch = if c then advance p ch else advance q ch := by
  split <;> exact Eq.refl _

end Equations

/-! ## Machine integers and memory: basic facts -/

theorem toInt32_of_range (v : Int) (h1 : -2147483648 ≤ v) (h2 : v < 2147483648) :
    toInt32 v = v := by
  unfold toInt32
  omega

theorem toInt32_natCast (n : Nat) (h : n < 2147483648) : toInt32 (n : Int) = (n : Int) :=
  toInt32_of_range _ (by omega) (by omega)

theorem toSizeT_natCast (n : Nat) (h : n < 18446744073709551616) : toSizeT (n : Int) = n := by
  unfold toSizeT
  omega

theorem bytes4 (u : Nat) (h : u < 4294967296) :
    u % 256 + 256 * (u / 256 % 256) + 65536 * (u / 65536 % 256)
      + 16777216 * (u / 16777216 % 256) = u := by
  omega

theorem loadInt32_storeInt32 (v : Int) (h1 : -2147483648 ≤ v) (h2 : v < 2147483648) :
    loadInt32 (storeInt32 v) = v := by
  unfold loadInt32 storeInt32 toInt32
  simp only [List.getD_cons_zero, List.getD_cons_succ, Int.ofNat_eq_coe]
  rw [bytes4 _ (by omega)]
  omega

theorem storeInt32_length (v : Int) : (storeInt32 v).length = 4 := by
  unfold storeInt32
  exact Eq.refl _

theorem storeTime_length (t : Int) : (storeTime t).length = 8 := by
  unfold storeTime
  exact Eq.refl _

theorem mkHeader_eq (len t : Int) : mkHeader len t = storeTime t ++ storeInt32 len := by
  unfold mkHeader store storeTime storeInt32 MSG_HEADER_LEN MSGLEN_HDRFIELD_OFFSET
  exact Eq.refl _

theorem mkHeader_length (len t : Int) : (mkHeader len t).length = 12 := by
  rw [mkHeader_eq, List.length_append, storeTime_length, storeInt32_length]

theorem load_zero (buf : List Nat) (n : Nat) : load buf 0 n = buf.take n := by
  unfold load
  rw [List.drop_zero]

theorem store_length (b : List Nat) (off : Nat) (bs : List Nat) (h : off ≤ b.length) :
    (store b off bs).length = b.length := by
  unfold store
  simp only [List.length_append, List.length_take, List.length_drop]
  omega

theorem memset0_length (b : List Nat) (n : Nat) : (memset0 b n).length = b.length := by
  unfold memset0
  simp only [List.length_append, List.length_replicate, List.length_drop]
  omega

theorem store_eq (b : List Nat) (off : Nat) (bs : List Nat) (h : off + bs.length ≤ b.length) :
    store b off bs = b.take off ++ bs ++ b.drop (off + bs.length) := by
  unfold store
  have h1 : bs.take (b.length - off) = bs := List.take_of_length_le (by omega)
  rw [h1]

theorem load_store_same (b : List Nat) (off : Nat) (bs : List Nat)
    (h : off + bs.length ≤ b.length) : load (store b off bs) off bs.length = bs := by
  rw [store_eq b off bs h]
  unfold load
  have h1 : (b.take off).length = off := by rw [List.length_take]; omega
  rw [List.append_assoc, List.drop_left' h1, List.take_left' rfl]

theorem load_store_before (b : List Nat) (off : Nat) (bs : List Nat) (o n : Nat)
    (h : o + n ≤ off) (hb : off ≤ b.length) : load (store b off bs) o n = load b o n := by
  unfold store load
  have h1 : (b.take off).length = off := by rw [List.length_take]; omega
  rw [List.append_assoc, List.drop_append_of_le_length (by omega),
    List.take_append_of_le_length (by rw [List.length_drop]; omega),
    List.drop_take, List.take_take]
  congr 1
  omega

theorem load_header_field (len t : Int) (rest : List Nat) :
    load (mkHeader len t ++ rest) 8 4 = storeInt32 len := by
  rw [mkHeader_eq]
  unfold load storeTime storeInt32
  exact Eq.refl _

theorem load_store_header_field (b : List Nat) (len t : Int) (h : 12 ≤ b.length) :
    load (store b 0 (mkHeader len t)) 8 4 = storeInt32 len := by
  rw [store_eq b 0 _ (by rw [mkHeader_length]; omega), List.take_zero, List.nil_append,
    load_header_field]


theorem mkHeader_ne_nil (len t : Int) : mkHeader len t ≠ [] := by
  intro h
  have h12 := mkHeader_length len t
  rw [h] at h12
  exact absurd h12 (by decide)

theorem take_header (len t : Int) (rest : List Nat) :
    (mkHeader len t ++ rest).take 12 = mkHeader len t :=
  List.take_left' (mkHeader_length len t)

theorem drop_header (len t : Int) (rest : List Nat) :
    (mkHeader len t ++ rest).drop 12 = rest :=
  List.drop_left' (mkHeader_length len t)

theorem toInt32_12 : toInt32 12 = 12 := by decide

theorem toInt32_1023 : toInt32 1023 = 1023 := by decide

theorem toSizeT_1023 : toSizeT 1023 = 1023 := by decide

attribute [simp] pure_eq_ret bind_ret bind_exit bind_spin bind_act bind_read bind_write
  bind_fgets bind_time bind_ite run_cons_mk run_ret run_exit run_spin run_act run_read_nil
  run_read_cons run_write_nil run_write_cons run_fgets run_time run_ite adv_cons_mk
  adv_send_mk advance_ret advance_exit advance_spin advance_act advance_write advance_fgets
  advance_time advance_ite

/-! ## Port validation -/

/-- The scan finds nothing exactly when every byte before the first NUL is a digit. -/
theorem firstNonDigit_eq_none (s : List Nat) :
    firstNonDigit s = none ↔ ∀ c ∈ cstr s, isdigit c = true := by
  induction s with
  | nil => simp [firstNonDigit, cstr]
  | cons c cs ih =>
    unfold firstNonDigit cstr
    by_cases h0 : c = 0
    · simp [h0]
    · by_cases hd : c < 48 ∨ c > 57
      · have hnd : ¬(48 ≤ c ∧ c ≤ 57) := by omega
        simp [h0, hd, isdigit, hnd]
      · have hdig : 48 ≤ c ∧ c ≤ 57 := by omega
        simp [h0, hd, ih, isdigit, hdig]

/-- On a string of digits `digitsVal` computes the number the digits denote. -/
theorem digitsVal_eq_foldl (s : List Nat) (acc : Nat) (h : ∀ c ∈ s, isdigit c = true) :
    digitsVal s acc = s.foldl (fun a c => a * 10 + (c - 48)) acc := by
  induction s generalizing acc with
  | nil => rfl
  | cons c cs ih =>
    have hc : isdigit c = true := h c (List.mem_cons_self c cs)
    simp only [digitsVal, hc, if_true, List.foldl_cons]
    exact ih _ (fun d hd => h d (List.mem_cons_of_mem c hd))

/-- C4, the failing input: the argument `4294975376` consists of decimal digits only
and denotes 2^32 + 8080, a number above 65535, yet `validate_portnumber` returns
(with the port 8080) instead of ending the process with status 1. -/
theorem validate_portnumber_accepts_wrapped :
    (∀ c ∈ bytesOf "4294975376", isdigit c = true) ∧
    decimalValue (bytesOf "4294975376") = 4294975376 ∧
    validate_portnumber (bytesOf "4294975376") = .ret 8080 := by
  decide

/-- The three arguments the specification names: `70000` and `99ab` end the process with
status 1, `8080` is accepted with the value 8080. -/
theorem validate_portnumber_examples :
    validate_portnumber (bytesOf "70000") = .exitOutOfRange 1 70000 ∧
    validate_portnumber (bytesOf "99ab") = .exitNonNumeric 1 97 ∧
    validate_portnumber (bytesOf "8080") = .ret 8080 ∧
    validate_portnumber (bytesOf "") = .exitOutOfRange 1 0 := by
  decide

/-! ## Teardown -/

/-- C10: in every session state `close_dynamic_assets` closes the handle exactly when
it is not -1 and frees the name exactly when it is not NULL, it returns with the state
(name = NULL, handle = -1), and a second call on that state makes no call at all and
returns the same state. -/
theorem close_dynamic_assets_idempotent (g : Globals) (env : Env) :
    run (close_dynamic_assets g) env
      = ⟨teardownCalls g, .returned { client_name := none, client_sockfd := -1 }⟩ ∧
    run (close_dynamic_assets { client_name := none, client_sockfd := -1 }) env
      = ⟨[], .returned { client_name := none, client_sockfd := -1 }⟩ := by
  obtain ⟨name, fd⟩ := g
  constructor
  · by_cases hfd : fd = -1 <;> cases name <;>
      simp [close_dynamic_assets, teardownCalls, hfd, emit, bind, Proc.bind, pure, run,
        Run.cons, Ne.symm, eq_comm]
  · rfl

/-! ## The frame codec on a reliable stream -/

/-- Facts about a length between 0 and 1023 as `int` and `size_t`. -/
theorem len_facts (n : Nat) (h : n ≤ 1023) :
    toSizeT (n : Int) = n ∧ toInt32 (n : Int) = n ∧ toSizeT ((n : Int) + 1) = n + 1 ∧
    toInt32 ((n : Int) + 1) = (n : Int) + 1 ∧ toInt32 (1 + (n : Int)) = (n : Int) + 1 ∧
    loadInt32 (storeInt32 (n : Int)) = n ∧ ¬ ((n : Int) > 1023) ∧ ¬ ((n : Int) < 0) := by
  refine ⟨toSizeT_natCast _ (by omega), toInt32_natCast _ (by omega), ?_,
    toInt32_of_range _ (by omega) (by omega), ?_,
    loadInt32_storeInt32 _ (by omega) (by omega), by omega, by omega⟩
  · have h := toSizeT_natCast (n + 1) (by omega)
    rw [Nat.cast_add, Nat.cast_one] at h
    exact h
  · rw [toInt32_of_range _ (by omega) (by omega)]
    omega

theorem ne_nil_of_length_pos (p : List Nat) (h : 1 ≤ p.length) : ¬ (p = []) := by
  intro hp
  rw [hp] at h
  exact absurd h (by decide)

theorem server_send_adv (fd : Int) (p rest inbox : List Nat) (eof : Bool) (ls : List (List Nat))
    (t : Int) (cl : List Int) (h1 : 1 ≤ p.length) (h2 : p.length ≤ 1023) :
    advance (Server.send_display_name fd (p ++ rest) (Int.ofNat p.length)) ⟨inbox, eof, ls, t :: cl⟩
      = ⟨[.act (.call .send_display_name), .time t,
          .write fd (mkHeader (Int.ofNat p.length) t) 12 12,
          .write fd p p.length (Int.ofNat p.length)],
         mkHeader (Int.ofNat p.length) t ++ p, .ret (), ⟨inbox, eof, ls, cl⟩⟩ := by
  obtain ⟨hs, hi, -, -, -, -, hlt, hp⟩ := len_facts p.length h2
  have hz := ne_nil_of_length_pos p h1
  unfold Server.send_display_name
  simp [emit, sys_time, sys_write, MAX_MSG_LEN, MSG_HEADER_LEN, toInt32_12, errprintf_and_exit,
    load_zero, mkHeader_length, hs, hi, hlt, hp, hz]

theorem client_send_adv (fd : Int) (p rest inbox sdn : List Nat) (eof : Bool)
    (ls : List (List Nat)) (t : Int) (cl : List Int) (h1 : 1 ≤ p.length) (h2 : p.length ≤ 1023) :
    advance (Client.send_display_name fd (p ++ rest) (Int.ofNat p.length) sdn)
        ⟨inbox, eof, ls, t :: cl⟩
      = ⟨[.act (.call .send_display_name), .time t,
          .write fd (mkHeader (Int.ofNat p.length) t) 12 12,
          .write fd p p.length (Int.ofNat p.length)],
         mkHeader (Int.ofNat p.length) t ++ p, .ret (), ⟨inbox, eof, ls, cl⟩⟩ := by
  obtain ⟨hs, hi, -, -, -, -, hlt, hp⟩ := len_facts p.length h2
  have hz := ne_nil_of_length_pos p h1
  unfold Client.send_display_name
  simp [emit, sys_time, sys_write, MAX_MSG_LEN, MSG_HEADER_LEN, toInt32_12, errprintf_and_exit,
    load_zero, mkHeader_length, hs, hi, hlt, hp, hz]

theorem server_recv_adv (fd : Int) (p more buf : List Nat) (eof : Bool) (ls : List (List Nat))
    (t : Int) (cl : List Int) (h1 : 1 ≤ p.length) (h2 : p.length ≤ 1023) (hb : buf.length = 1036) :
    advance (Server.receive_client_display_name fd buf)
        ⟨mkHeader (Int.ofNat p.length) t ++ p ++ more, eof, ls, cl⟩
      = ⟨[.act (.call .receive_client_display_name),
          .read fd 12 (.data (mkHeader (Int.ofNat p.length) t)),
          .read fd p.length (.data p),
          .act (.malloc (p.length + 1))],
         [], .ret (p ++ [0], store (store (memset0 buf 1036) 0 (mkHeader (Int.ofNat p.length) t)) 12 p),
         ⟨more, eof, ls, cl⟩⟩ := by
  obtain ⟨hs, hi, hs1, hi1, -, hL, -, hp⟩ := len_facts p.length h2
  have hz := ne_nil_of_length_pos p h1
  have hm : (memset0 buf 1036).length = 1036 := by rw [memset0_length, hb]
  have hm2 : (store (memset0 buf 1036) 0 (mkHeader (p.length : Int) t)).length = 1036 := by
    rw [store_length _ _ _ (by omega), hm]
  have hf := load_store_header_field (memset0 buf 1036) (p.length : Int) t (by omega)
  have hf2 := load_store_same (store (memset0 buf 1036) 0 (mkHeader (p.length : Int) t)) 12 p
    (by omega)
  unfold Server.receive_client_display_name
  simp [emit, sys_read, MSG_HEADER_LEN, MSGLEN_HDRFIELD_OFFSET, DATA_BUFFER_LEN, advance_read,
    mkHeader_ne_nil, take_header, drop_header, ReadRes.bytes, ReadRes.ret, mkHeader_length,
    toInt32_12, errprintf_and_exit, hf, hL, hs, hi, hi1, hs1, hp, hz, hf2]

theorem client_recv_adv (fd : Int) (p buf : List Nat) (eof : Bool) (ls : List (List Nat))
    (t : Int) (cl : List Int) (h1 : 1 ≤ p.length) (h2 : p.length ≤ 1023) (hb : buf.length = 1036) :
    advance (Client.receive_server_display_name fd buf)
        ⟨mkHeader (Int.ofNat p.length) t ++ p, eof, ls, cl⟩
      = ⟨[.act (.call .receive_server_display_name),
          .read fd 12 (.data (mkHeader (Int.ofNat p.length) t)),
          .read fd 1024 (.data p),
          .act (.malloc (p.length + 1))],
         [], .ret (p ++ [0], store (store buf 0 (mkHeader (Int.ofNat p.length) t)) 12 p),
         ⟨[], eof, ls, cl⟩⟩ := by
  obtain ⟨hs, hi, hs1, hi1, hi2, hL, -, hp⟩ := len_facts p.length h2
  have hz := ne_nil_of_length_pos p h1
  have hm2 : (store buf 0 (mkHeader (p.length : Int) t)).length = 1036 := by
    rw [store_length _ _ _ (by omega), hb]
  have hf := load_store_header_field buf (p.length : Int) t (by omega)
  have hf1 := load_store_before (store buf 0 (mkHeader (p.length : Int) t)) 12 p 8 4
    (by omega) (by omega)
  have hf2 := load_store_same (store buf 0 (mkHeader (p.length : Int) t)) 12 p (by omega)
  have ht : List.take 1024 p = p := List.take_of_length_le (by omega)
  have hd : List.drop 1024 p = [] := List.drop_of_length_le (by omega)
  unfold Client.receive_server_display_name
  simp [emit, sys_read, MSG_HEADER_LEN, MSGLEN_HDRFIELD_OFFSET, MSG_BUF_LEN, advance_read,
    mkHeader_ne_nil, take_header, drop_header, ReadRes.bytes, ReadRes.ret, mkHeader_length,
    toInt32_12, errprintf_and_exit, hf, hf1, hL, hs, hi, hi1, hi2, hs1, hp, hz, hf2, ht, hd]

theorem client_receive_msg_adv (fd : Int) (p more buf : List Nat) (eof : Bool)
    (ls : List (List Nat)) (t : Int) (cl : List Int) (h1 : 1 ≤ p.length) (h2 : p.length ≤ 1023)
    (hb : buf.length = 1036) :
    advance (Client.receive_msg fd buf) ⟨mkHeader (Int.ofNat p.length) t ++ p ++ more, eof, ls, cl⟩
      = ⟨[.act (.call .receive_msg),
          .read fd 12 (.data (mkHeader (Int.ofNat p.length) t)),
          .read fd p.length (.data p)],
         [], .ret (Int.ofNat p.length,
           store (store (memset0 buf 1036) 0 (mkHeader (Int.ofNat p.length) t)) 12 p),
         ⟨more, eof, ls, cl⟩⟩ := by
  obtain ⟨hs, hi, -, -, -, hL, -, hp⟩ := len_facts p.length h2
  have hz := ne_nil_of_length_pos p h1
  have hm : (memset0 buf 1036).length = 1036 := by rw [memset0_length, hb]
  have hf := load_store_header_field (memset0 buf 1036) (p.length : Int) t (by omega)
  unfold Client.receive_msg
  simp [emit, sys_read, MSG_HEADER_LEN, MSGLEN_HDRFIELD_OFFSET, DATA_BUFFER_LEN, advance_read,
    mkHeader_ne_nil, take_header, drop_header, ReadRes.bytes, ReadRes.ret, mkHeader_length,
    toInt32_12, hf, hL, hs, hi, hp, hz]

theorem server_receive_client_message_adv (fd : Int) (p more buf : List Nat) (eof : Bool)
    (ls : List (List Nat)) (t : Int) (cl : List Int) (h1 : 1 ≤ p.length) (h2 : p.length ≤ 1023)
    (hb : buf.length = 1036) :
    advance (Server.receive_client_message fd buf)
        ⟨mkHeader (Int.ofNat p.length) t ++ p ++ more, eof, ls, cl⟩
      = ⟨[.act (.call .receive_client_message),
          .read fd 12 (.data (mkHeader (Int.ofNat p.length) t)),
          .read fd p.length (.data p)],
         [], .ret (Int.ofNat p.length,
           store (store (memset0 buf 1036) 0 (mkHeader (Int.ofNat p.length) t)) 12 p),
         ⟨more, eof, ls, cl⟩⟩ := by
  obtain ⟨hs, hi, -, -, -, hL, -, hp⟩ := len_facts p.length h2
  have hz := ne_nil_of_length_pos p h1
  have hm : (memset0 buf 1036).length = 1036 := by rw [memset0_length, hb]
  have hf := load_store_header_field (memset0 buf 1036) (p.length : Int) t (by omega)
  unfold Server.receive_client_message
  simp [emit, sys_read, MSG_HEADER_LEN, MSGLEN_HDRFIELD_OFFSET, DATA_BUFFER_LEN, advance_read,
    mkHeader_ne_nil, take_header, drop_header, ReadRes.bytes, ReadRes.ret, mkHeader_length,
    toInt32_12, hf, hL, hs, hi, hp, hz]

/-- The payload stored behind a header is read back from offset 12. -/
theorem payload_in_databuf (buf p : List Nat) (len t : Int) (h2 : p.length ≤ 1023)
    (hb : buf.length = 1036) :
    load (store (store buf 0 (mkHeader len t)) 12 p) 12 p.length = p := by
  have hm2 : (store buf 0 (mkHeader len t)).length = 1036 := by
    rw [store_length _ _ _ (by omega), hb]
  exact load_store_same _ 12 p (by omega)

/-- C1, as amended: for every payload `p` of 1 to 1023 bytes, `send_display_name` of either
program, called with the declared length `len(p)`, puts the 12 header bytes and `p` on a
stream that takes every byte; bytes 8..11 of the header decode to `len(p)`; and each of
the four receiving operations, reading that frame from a stream that delivers every
requested byte, yields exactly `p` (the name functions return the allocation `p` followed
by NUL, the message functions return `len(p)` with `p` behind the header in the data
buffer). -/
theorem frame_roundtrip (fd : Int) (p rest buf sdn : List Nat) (t : Int)
    (h1 : 1 ≤ p.length) (h2 : p.length ≤ 1023) (hb : buf.length = 1036) :
    (advance (Server.send_display_name fd (p ++ rest) (Int.ofNat p.length))
        ⟨[], false, [], [t]⟩).sent = mkHeader (Int.ofNat p.length) t ++ p ∧
    (advance (Client.send_display_name fd (p ++ rest) (Int.ofNat p.length) sdn)
        ⟨[], false, [], [t]⟩).sent = mkHeader (Int.ofNat p.length) t ++ p ∧
    (mkHeader (Int.ofNat p.length) t).length = 12 ∧
    loadInt32 (load (mkHeader (Int.ofNat p.length) t ++ p) 8 4) = Int.ofNat p.length ∧
    (∃ b, (advance (Server.receive_client_display_name fd buf)
        ⟨mkHeader (Int.ofNat p.length) t ++ p, false, [], []⟩).next = .ret (p ++ [0], b)) ∧
    (∃ b, (advance (Client.receive_server_display_name fd buf)
        ⟨mkHeader (Int.ofNat p.length) t ++ p, false, [], []⟩).next = .ret (p ++ [0], b)) ∧
    (∃ b, (advance (Client.receive_msg fd buf)
        ⟨mkHeader (Int.ofNat p.length) t ++ p, false, [], []⟩).next
          = .ret (Int.ofNat p.length, b) ∧ load b 12 p.length = p) ∧
    (∃ b, (advance (Server.receive_client_message fd buf)
        ⟨mkHeader (Int.ofNat p.length) t ++ p, false, [], []⟩).next
          = .ret (Int.ofNat p.length, b) ∧ load b 12 p.length = p) := by
  have hm : (memset0 buf 1036).length = 1036 := by rw [memset0_length, hb]
  have e1 := server_recv_adv fd p [] buf false [] t [] h1 h2 hb
  have e2 := client_receive_msg_adv fd p [] buf false [] t [] h1 h2 hb
  have e3 := server_receive_client_message_adv fd p [] buf false [] t [] h1 h2 hb
  rw [List.append_nil] at e1 e2 e3
  rw [server_send_adv fd p rest [] false [] t [] h1 h2,
    client_send_adv fd p rest [] sdn false [] t [] h1 h2, e1, e2, e3,
    client_recv_adv fd p buf false [] t [] h1 h2 hb, load_header_field]
  exact ⟨rfl, rfl, mkHeader_length _ _, (len_facts p.length h2).2.2.2.2.2.1, ⟨_, rfl⟩, ⟨_, rfl⟩,
    ⟨_, rfl, payload_in_databuf _ p _ t h2 hm⟩, ⟨_, rfl, payload_in_databuf _ p _ t h2 hm⟩⟩

/-- Witness of `frame_roundtrip`: the name `Bob`, stored with its terminating NUL. -/
theorem frame_roundtrip_witness :
    (advance (Server.send_display_name 4 (bytesOf "Bob" ++ [0]) 3)
        ⟨[], false, [], [1700000000]⟩).sent = mkHeader 3 1700000000 ++ bytesOf "Bob" ∧
    (∃ b, (advance (Client.receive_server_display_name 3 (List.replicate 1036 0))
        ⟨mkHeader 3 1700000000 ++ bytesOf "Bob", false, [], []⟩).next
          = .ret (bytesOf "Bob" ++ [0], b)) :=
  have h := frame_roundtrip 4 (bytesOf "Bob") [0] (List.replicate 1036 0) [] 1700000000
    (by decide) (by decide) (List.length_replicate _ _)
  ⟨h.1, h.2.2.2.2.2.1⟩

/-- C1, counterexample: the empty payload.  `send_display_name` (here the client's, with the
empty name and declared length 0) writes the header and ends the process with status 1,
because the `write` of 0 payload bytes returns 0; the server's
`receive_client_display_name`, reading that frame, ends the process with status 1
instead of yielding the empty payload, because its `read` of 0 bytes returns 0. -/
theorem frame_roundtrip_fails_for_empty_payload :
    (advance (Client.send_display_name 3 [0] 0 (bytesOf "Bob" ++ [0]))
        ⟨[], false, [], [1700000000]⟩).sent = mkHeader 0 1700000000 ∧
    (advance (Client.send_display_name 3 [0] 0 (bytesOf "Bob" ++ [0]))
        ⟨[], false, [], [1700000000]⟩).next.outcome = .exited 1 ∧
    (advance (Server.receive_client_display_name 4 (List.replicate 1036 0))
        ⟨mkHeader 0 1700000000, false, [], []⟩).next.outcome = .exited 1 := by
  decide!

/-- C2: whenever the declared length is above 1023 (and the name has that many bytes),
`send_display_name` of either program emits the truncation warning, writes a header
whose `payload_length` field holds 1023 (the four bytes 255, 3, 0, 0) and then writes
exactly the first 1023 bytes of the name. -/
theorem send_display_name_truncates (fd : Int) (name sdn : List Nat) (len t : Int)
    (hlen : 1023 < len) (hname : 1023 ≤ name.length) :
    advance (Server.send_display_name fd name len) ⟨[], false, [], [t]⟩
      = ⟨[.act (.call .send_display_name), .act (.print (.truncation len)), .time t,
          .write fd (mkHeader 1023 t) 12 12,
          .write fd (name.take 1023) 1023 1023],
         mkHeader 1023 t ++ name.take 1023, .ret (), ⟨[], false, [], []⟩⟩ ∧
    advance (Client.send_display_name fd name len sdn) ⟨[], false, [], [t]⟩
      = ⟨[.act (.call .send_display_name), .act (.print (.truncation len)), .time t,
          .write fd (mkHeader 1023 t) 12 12,
          .write fd (name.take 1023) 1023 1023],
         mkHeader 1023 t ++ name.take 1023, .ret (), ⟨[], false, [], []⟩⟩ ∧
    (mkHeader 1023 t).length = 12 ∧
    load (mkHeader 1023 t ++ name.take 1023) 8 4 = [255, 3, 0, 0] ∧
    loadInt32 (load (mkHeader 1023 t ++ name.take 1023) 8 4) = 1023 ∧
    (name.take 1023).length = 1023 := by
  have hneg : ¬ (len < 0) := by omega
  refine ⟨?_, ?_, mkHeader_length _ _, ?_, ?_, ?_⟩
  · unfold Server.send_display_name
    simp [emit, sys_time, sys_write, MAX_MSG_LEN, MSG_HEADER_LEN, hlen, toInt32_12,
      toInt32_1023, toSizeT_1023, errprintf_and_exit, load_zero, hname, mkHeader_length]
  · unfold Client.send_display_name
    simp [emit, sys_time, sys_write, MAX_MSG_LEN, MSG_HEADER_LEN, hlen, hneg, toInt32_12,
      toInt32_1023, toSizeT_1023, errprintf_and_exit, load_zero, hname, mkHeader_length]
  · rw [load_header_field]
    decide
  · rw [load_header_field]
    decide
  · rw [List.length_take]
    omega

/-- Witness of `send_display_name_truncates`: a name of 1030 bytes. -/
theorem send_display_name_truncates_witness :
    (mkHeader 1023 1700000000).length = 12 ∧
    loadInt32 (load (mkHeader 1023 1700000000 ++ (List.replicate 1030 65).take 1023) 8 4)
      = 1023 ∧
    ((List.replicate 1030 65).take 1023).length = 1023 :=
  have h := send_display_name_truncates 4 (List.replicate 1030 65) [] 1030 1700000000
    (by decide) (by rw [List.length_replicate]; decide)
  ⟨h.2.2.1, h.2.2.2.2.1, h.2.2.2.2.2⟩

/-! ## All runs of a process -/

section
variable {α β : Type}

theorem allRuns_ret (a : α) (Q : List Ev → Outcome α → Prop) :
    AllRuns (Proc.ret a) Q ↔ Q [] (.returned a) := by
  rw [AllRuns]

theorem allRuns_exit (c : Int) (Q : List Ev → Outcome α → Prop) :
    AllRuns (Proc.exit c) Q ↔ Q [] (.exited c) := by
  rw [AllRuns]

theorem allRuns_spin (Q : List Ev → Outcome α → Prop) :
    AllRuns (Proc.spin) Q ↔ Q [] .running := by
  rw [AllRuns]

theorem allRuns_act (a : Act) (k : Proc α) (Q : List Ev → Outcome α → Prop) :
    AllRuns (Proc.act a k) Q ↔ AllRuns k (fun t o => Q (.act a :: t) o) := by
  rw [AllRuns]

theorem allRuns_read (fd : Int) (n : Nat) (k : ReadRes → Proc α)
    (Q : List Ev → Outcome α → Prop) :
    AllRuns (Proc.read fd n k) Q ↔ (Q [] .blocked ∧
      ∀ r : ReadRes, AllRuns (k (r.clip n)) (fun t o => Q (.read fd n (r.clip n) :: t) o)) := by
  rw [AllRuns]

theorem allRuns_write (fd : Int) (d : List Nat) (n : Nat) (k : Int → Proc α)
    (Q : List Ev → Outcome α → Prop) :
    AllRuns (Proc.write fd d n k) Q ↔ (Q [] .blocked ∧
      ∀ w : WriteRes, AllRuns (k (w.ret n)) (fun t o => Q (.write fd d n (w.ret n) :: t) o)) := by
  rw [AllRuns]

theorem allRuns_fgets (n : Nat) (k : Option (List Nat) → Proc α)
    (Q : List Ev → Outcome α → Prop) :
    AllRuns (Proc.fgets n k) Q ↔ ∀ ls : List (List Nat),
        AllRuns (k (fgetsRes n ls)) (fun t o => Q (.fgets n (fgetsRes n ls) :: t) o) := by
  rw [AllRuns]

theorem allRuns_time (k : Int → Proc α) (Q : List Ev → Outcome α → Prop) :
    AllRuns (Proc.time k) Q ↔ ∀ t0 : Int, AllRuns (k t0) (fun t o => Q (.time t0 :: t) o) := by
  rw [AllRuns]

attribute [irreducible] AllRuns

/-- What holds of all runs holds of the run against any scripted environment. -/
theorem AllRuns.run {p : Proc α} {Q : List Ev → Outcome α → Prop} (h : AllRuns p Q)
    (env : Env) : Q (run p env).trace (run p env).outcome := by
  induction p generalizing Q env with
  | ret a => rw [run_ret]; exact (allRuns_ret a Q).1 h
  | exit c => rw [run_exit]; exact (allRuns_exit c Q).1 h
  | spin => rw [run_spin]; exact (allRuns_spin Q).1 h
  | act a k ih =>
    rw [run_act, run_cons_trace, run_cons_outcome]
    exact ih ((allRuns_act a k Q).1 h) env
  | read fd n k ih =>
    obtain ⟨rs, ws, ls, cl⟩ := env
    have h' := (allRuns_read fd n k Q).1 h
    cases rs with
    | nil => rw [run_read_nil]; exact h'.1
    | cons r rs =>
      rw [run_read_cons, run_cons_trace, run_cons_outcome]
      exact ih _ (h'.2 r) _
  | write fd d n k ih =>
    obtain ⟨rs, ws, ls, cl⟩ := env
    have h' := (allRuns_write fd d n k Q).1 h
    cases ws with
    | nil => rw [run_write_nil]; exact h'.1
    | cons w ws =>
      rw [run_write_cons, run_cons_trace, run_cons_outcome]
      exact ih _ (h'.2 w) _
  | fgets n k ih =>
    obtain ⟨rs, ws, ls, cl⟩ := env
    rw [run_fgets, run_cons_trace, run_cons_outcome]
    exact ih _ ((allRuns_fgets n k Q).1 h ls) _
  | time k ih =>
    obtain ⟨rs, ws, ls, cl⟩ := env
    rw [run_time, run_cons_trace, run_cons_outcome]
    exact ih _ ((allRuns_time k Q).1 h _) _

theorem AllRuns.mono {p : Proc α} {Q Q' : List Ev → Outcome α → Prop} (h : AllRuns p Q)
    (hQ : ∀ t o, Q t o → Q' t o) : AllRuns p Q' := by
  induction p generalizing Q Q' with
  | ret a => exact (allRuns_ret a Q').2 (hQ _ _ ((allRuns_ret a Q).1 h))
  | exit c => exact (allRuns_exit c Q').2 (hQ _ _ ((allRuns_exit c Q).1 h))
  | spin => exact (allRuns_spin Q').2 (hQ _ _ ((allRuns_spin Q).1 h))
  | act a k ih =>
    exact (allRuns_act a k Q').2 (ih ((allRuns_act a k Q).1 h) (fun t o => hQ _ o))
  | read fd n k ih =>
    have h' := (allRuns_read fd n k Q).1 h
    exact (allRuns_read fd n k Q').2 ⟨hQ _ _ h'.1, fun r => ih _ (h'.2 r) (fun t o => hQ _ o)⟩
  | write fd d n k ih =>
    have h' := (allRuns_write fd d n k Q).1 h
    exact (allRuns_write fd d n k Q').2 ⟨hQ _ _ h'.1, fun w => ih _ (h'.2 w) (fun t o => hQ _ o)⟩
  | fgets n k ih =>
    exact (allRuns_fgets n k Q').2
      (fun ls => ih _ ((allRuns_fgets n k Q).1 h ls) (fun t o => hQ _ o))
  | time k ih =>
    exact (allRuns_time k Q').2 (fun t0 => ih _ ((allRuns_time k Q).1 h t0) (fun t o => hQ _ o))

end

theorem server_loop_succ (fuel : Nat) (client_sfd : Int) (g : Globals) (databuf : List Nat) :
    Server.loop (fuel + 1) client_sfd g databuf = (do
      let (outcome, databuf) ← Server.receive_client_message client_sfd databuf
      if 0 > outcome then Server.unexpected_err client_sfd g
      else if outcome = 0 then Server.disconnected_client client_sfd g
      else do
        emit (.print (.chatLine (loadTime (load databuf 0 8)) (cstr (g.client_name.getD []))
          (cstr (databuf.drop MSG_HEADER_LEN))))
        let (outcome, databuf) ← Server.prompt_and_message_client client_sfd databuf
        if 0 > outcome then Server.unexpected_err client_sfd g
        else if outcome = 0 then Server.disconnected_client client_sfd g
        else do
          emit (.print .waitingResponse)
          Server.loop fuel client_sfd g databuf) := by
  rw [Server.loop]

section
variable {α β : Type}

theorem AllRuns.bind {p : Proc α} {f : α → Proc β} {Q : List Ev → Outcome β → Prop}
    (h : AllRuns p (After f Q)) : AllRuns (p >>= f) Q := by
  induction p generalizing Q with
  | ret a =>
    rw [bind_ret]
    have h' := (allRuns_ret a _).1 h
    exact h'
  | exit c =>
    rw [bind_exit, allRuns_exit]
    exact (allRuns_exit c (After f Q)).1 h
  | spin =>
    rw [bind_spin, allRuns_spin]
    exact (allRuns_spin (After f Q)).1 h
  | act a k ih =>
    rw [bind_act, allRuns_act]
    apply ih
    refine AllRuns.mono ((allRuns_act a k _).1 h) ?_
    intro t o ho
    cases o <;> exact ho
  | read fd n k ih =>
    rw [bind_read, allRuns_read]
    have h' := (allRuns_read fd n k _).1 h
    refine ⟨h'.1, fun r => ?_⟩
    apply ih
    refine AllRuns.mono (h'.2 r) ?_
    intro t o ho
    cases o <;> exact ho
  | write fd d n k ih =>
    rw [bind_write, allRuns_write]
    have h' := (allRuns_write fd d n k _).1 h
    refine ⟨h'.1, fun w => ?_⟩
    apply ih
    refine AllRuns.mono (h'.2 w) ?_
    intro t o ho
    cases o <;> exact ho
  | fgets n k ih =>
    rw [bind_fgets, allRuns_fgets]
    intro ls
    apply ih
    refine AllRuns.mono ((allRuns_fgets n k _).1 h ls) ?_
    intro t o ho
    cases o <;> exact ho
  | time k ih =>
    rw [bind_time, allRuns_time]
    intro t0
    apply ih
    refine AllRuns.mono ((allRuns_time k _).1 h t0) ?_
    intro t o ho
    cases o <;> exact ho

end

/-! ## The turn-taking loops -/

theorem toInt32_zero : toInt32 0 = 0 := by decide

theorem client_loop_succ (fuel : Nat) (sfd : Int) (server_dispname databuf : List Nat) :
    Client.loop (fuel + 1) sfd server_dispname databuf = (do
      let (outcome, databuf) ← Client.prompt_and_send_msg sfd databuf
      if 0 > outcome then Client.err_write_disrupted sfd server_dispname
      else if outcome = 0 then Client.after_loop sfd server_dispname
      else do
        emit (.print .waitingResponse)
        let (outcome, databuf) ← Client.receive_msg sfd databuf
        if 0 > outcome then Client.err_write_disrupted sfd server_dispname
        else if outcome = 0 then Client.after_loop sfd server_dispname
        else do
          emit (.print (.chatLine (loadTime (load databuf 0 8)) (cstr server_dispname)
            (cstr (databuf.drop MSG_HEADER_LEN))))
          Client.loop fuel sfd server_dispname databuf) := by
  rw [Client.loop]

theorem client_send_display_name_enters (fd : Int) (name : List Nat) (len : Int)
    (sdn : List Nat) :
    ∃ k, Client.send_display_name fd name len sdn = Proc.act (.call .send_display_name) k := by
  unfold Client.send_display_name
  simp only [emit, bind_act, bind_ret]
  exact ⟨_, Eq.refl _⟩

/-- After a failed `read` of the server's name the client goes on, whatever the environment
answers from then on: it allocates the name and enters `send_display_name`. -/
theorem client_goes_on_after_failed_name_read (fuel : Nat) (argv : List Nat)
    (rs : List ReadRes) (ws : List WriteRes) (ls : List (List Nat)) (cl : List Int) :
    ∃ m rest, (run (Client.session fuel argv 3)
        ⟨.data (mkHeader 3 9) :: .fail :: rs, ws, ls, cl⟩).trace
      = [.act (.call .receive_server_display_name), .read 3 12 (.data (mkHeader 3 9)),
         .read 3 1024 .fail, .act (.malloc m), .act (.call .send_display_name)] ++ rest := by
  have h12 : (mkHeader 3 9).take 12 = mkHeader 3 9 :=
    List.take_of_length_le (le_of_eq (mkHeader_length _ _))
  have hpos : ¬ (0 > toInt32 (Int.ofNat (mkHeader 3 9).length)) := by
    rw [mkHeader_length]
    decide
  have hne : ¬ (toInt32 (Int.ofNat (mkHeader 3 9).length) = 0) := by
    rw [mkHeader_length]
    decide
  unfold Client.session Client.handshake Client.receive_server_display_name
  simp only [emit, sys_read, pure_eq_ret, bind_ret, bind_act, bind_read, bind_ite,
    run_act, run_read_cons, run_ite, ReadRes.clip, ReadRes.ret, MSG_HEADER_LEN, MSG_BUF_LEN,
    h12, if_neg hpos, if_neg hne, run_cons_trace]
  obtain ⟨k, hk⟩ := client_send_display_name_enters 3 argv
    (toInt32 (Int.ofNat (strlen argv)))
    (load (store (store (List.replicate DATA_BUFFER_LEN 0) 0
      (ReadRes.data (mkHeader 3 9)).bytes) 12 ReadRes.fail.bytes) 12
      (toSizeT (loadInt32 (load (store (store (List.replicate DATA_BUFFER_LEN 0) 0
        (ReadRes.data (mkHeader 3 9)).bytes) 12 ReadRes.fail.bytes)
        MSGLEN_HDRFIELD_OFFSET 4))) ++ [0])
  rw [hk]
  simp only [bind_act, run_act, run_cons_trace]
  exact ⟨_, _, Eq.refl _⟩

/-- C6, the failing input: the client's `read` of the server's name fails (returns -1)
after the header has arrived, and the connection stays broken, so that the next `write`
fails as well.  `receive_server_display_name` does not look at the result of that `read`:
the client allocates the name, enters `send_display_name`, takes the time and asks `write`
for its own name header; it ends only there, with the diagnostic of a failed send.  The
server's `receive_client_display_name`, whose `read` of the name fails in the same way,
ends at once with the diagnostic of a failed receive.  Whatever the environment answers
after the failed `read`, and whatever the client's name, the client goes on to allocate
the name and to enter `send_display_name`. -/
theorem client_ignores_failed_name_read :
    (run (Client.session 1 (bytesOf "Alice" ++ [0]) 3)
      ⟨[.data (mkHeader 3 9), .fail], [.fail], [], [7]⟩)
      = ⟨[.act (.call .receive_server_display_name), .read 3 12 (.data (mkHeader 3 9)),
          .read 3 1024 .fail, .act (.malloc 4),
          .act (.call .send_display_name), .time 7,
          .write 3 (mkHeader 5 7) 12 (-1),
          .act (.close 3), .act (.print .sendNameFailed)], .exited 1⟩ ∧
    (run (Server.session 1 (bytesOf "Bob" ++ [0]) 4 (List.replicate 1036 0))
      ⟨[.data (mkHeader 5 9), .fail], [.accepted 12, .accepted 3], [], [7]⟩)
      = ⟨[.act (.call .send_display_name), .time 7,
          .write 4 (mkHeader 3 7) 12 12, .write 4 (bytesOf "Bob") 3 3,
          .act (.call .receive_client_display_name), .read 4 12 (.data (mkHeader 5 9)),
          .read 4 5 .fail, .act (.print .receiveNameFailed)], .exited 1⟩ ∧
    (∀ (fuel : Nat) (argv : List Nat) (rs : List ReadRes) (ws : List WriteRes)
        (ls : List (List Nat)) (cl : List Int),
      ∃ m rest, (run (Client.session fuel argv 3)
          ⟨.data (mkHeader 3 9) :: .fail :: rs, ws, ls, cl⟩).trace
        = [.act (.call .receive_server_display_name), .read 3 12 (.data (mkHeader 3 9)),
           .read 3 1024 .fail, .act (.malloc m), .act (.call .send_display_name)] ++ rest) :=
  ⟨by decide!, by decide!, client_goes_on_after_failed_name_read⟩

/-- C9, the failing inputs: the first `write` of the handshake fails.  The server ends
with status 1 without having closed the connection's socket; the client, which has
allocated the server's name by then, closes the socket and ends with status 1 without
having freed the name.  A failed `read` of the header in the server's handshake ends the
server with status 1 without a `close` as well. -/
theorem handshake_failure_skips_teardown :
    (run (Server.session 1 (bytesOf "Bob" ++ [0]) 4 (List.replicate 1036 0))
      ⟨[], [.fail], [], [7]⟩)
      = ⟨[.act (.call .send_display_name), .time 7, .write 4 (mkHeader 3 7) 12 (-1),
          .act (.print .sendNameFailed)], .exited 1⟩ ∧
    (run (Server.session 1 (bytesOf "Bob" ++ [0]) 4 (List.replicate 1036 0))
      ⟨[.fail], [.accepted 12, .accepted 3], [], [7]⟩)
      = ⟨[.act (.call .send_display_name), .time 7, .write 4 (mkHeader 3 7) 12 12,
          .write 4 (bytesOf "Bob") 3 3, .act (.call .receive_client_display_name),
          .read 4 12 .fail, .act (.print .receiveNameFailed)], .exited 1⟩ ∧
    (run (Client.session 1 (bytesOf "Alice" ++ [0]) 3)
      ⟨[.data (mkHeader 3 9), .data (bytesOf "Bob")], [.fail], [], [7]⟩)
      = ⟨[.act (.call .receive_server_display_name), .read 3 12 (.data (mkHeader 3 9)),
          .read 3 1024 (.data (bytesOf "Bob")), .act (.malloc 4),
          .act (.call .send_display_name), .time 7, .write 3 (mkHeader 5 7) 12 (-1),
          .act (.close 3), .act (.print .sendNameFailed)], .exited 1⟩ := by
  decide!

/-! ## The handshake of two connected programs -/

theorem strlen_append_nul (s rest : List Nat) (h : ∀ b ∈ s, b ≠ 0) :
    strlen (s ++ 0 :: rest) = s.length := by
  induction s with
  | nil => simp [strlen]
  | cons c cs ih =>
    have hc : c ≠ 0 := h c (List.mem_cons_self c cs)
    have ih' := ih (fun b hb => h b (List.mem_cons_of_mem c hb))
    simp [strlen, hc, ih']

/-- The server's handshake on a connection on which nothing has arrived yet: it sends its
name frame and then waits in the header `read` of `receive_client_display_name`; when
the frame of the client's name has arrived, it goes on from there and returns holding
that name. -/
theorem server_handshake_phases (ns nc buf : List Nat) (sfd : Int) (ts tc : Int)
    (hs1 : 1 ≤ ns.length) (hs2 : ns.length ≤ 1023) (hs0 : ∀ b ∈ ns, b ≠ 0)
    (hc1 : 1 ≤ nc.length) (hc2 : nc.length ≤ 1023) (hb : buf.length = 1036) :
    ∃ k : ReadRes → Proc (Globals × List Nat),
      advance (Server.handshake (ns ++ [0]) sfd buf) ⟨[], false, [], [ts]⟩
        = ⟨[.act (.call .send_display_name), .time ts,
            .write sfd (mkHeader (Int.ofNat ns.length) ts) 12 12,
            .write sfd ns ns.length (Int.ofNat ns.length),
            .act (.call .receive_client_display_name)],
           mkHeader (Int.ofNat ns.length) ts ++ ns, Proc.read sfd 12 k, ⟨[], false, [], []⟩⟩ ∧
      advance (Proc.read sfd 12 k) ⟨mkHeader (Int.ofNat nc.length) tc ++ nc, true, [], []⟩
        = ⟨[.read sfd 12 (.data (mkHeader (Int.ofNat nc.length) tc)),
            .read sfd nc.length (.data nc),
            .act (.malloc (nc.length + 1))],
           [], .ret ({ client_name := some (nc ++ [0]), client_sockfd := sfd },
             store (store (memset0 buf 1036) 0 (mkHeader (Int.ofNat nc.length) tc)) 12 nc),
           ⟨[], true, [], []⟩⟩ := by
  obtain ⟨hss, hsi, -, -, -, -, hslt, hsp⟩ := len_facts ns.length hs2
  obtain ⟨hcs, hci, hcs1, hci1, -, hcL, -, hcp⟩ := len_facts nc.length hc2
  have hsz := ne_nil_of_length_pos ns hs1
  have hcz := ne_nil_of_length_pos nc hc1
  have hsl := strlen_append_nul ns [] hs0
  have hm : (memset0 buf 1036).length = 1036 := by rw [memset0_length, hb]
  have hf := load_store_header_field (memset0 buf 1036) (nc.length : Int) tc (by omega)
  have hf2 := payload_in_databuf (memset0 buf 1036) nc (nc.length : Int) tc hc2 hm
  refine ⟨?k, ?h1, ?h2⟩
  case h1 =>
    unfold Server.handshake Server.send_display_name Server.receive_client_display_name
    conv_lhs =>
      simp [emit, sys_time, sys_write, sys_read, MAX_MSG_LEN, MSG_HEADER_LEN, toInt32_12,
        errprintf_and_exit, load_zero, mkHeader_length, advance_read_wait,
        hss, hsi, hslt, hsp, hsz, hsl]
    exact Eq.refl _
  case h2 =>
    conv_lhs =>
      simp [advance_read, MSGLEN_HDRFIELD_OFFSET, DATA_BUFFER_LEN,
        mkHeader_ne_nil, take_header, drop_header, ReadRes.bytes, ReadRes.ret, mkHeader_length,
        toInt32_12, errprintf_and_exit, hf, hcL, hcs, hci, hci1, hcs1, hcp, hcz, hf2]
    exact Eq.refl _

/-- The client's handshake once the frame of the server's name has arrived: it reads the
frame, then sends its own name frame, and returns holding the server's name. -/
theorem client_handshake_adv (ns nc cbuf : List Nat) (cfd : Int) (ts tc : Int) (eof : Bool)
    (hs1 : 1 ≤ ns.length) (hs2 : ns.length ≤ 1023)
    (hc1 : 1 ≤ nc.length) (hc2 : nc.length ≤ 1023) (hc0 : ∀ b ∈ nc, b ≠ 0)
    (hr : cbuf.length = 1036) :
    advance (Client.handshake (nc ++ [0]) cfd cbuf)
        ⟨mkHeader (Int.ofNat ns.length) ts ++ ns, eof, [], [tc]⟩
      = ⟨[.act (.call .receive_server_display_name),
          .read cfd 12 (.data (mkHeader (Int.ofNat ns.length) ts)),
          .read cfd 1024 (.data ns),
          .act (.malloc (ns.length + 1)),
          .act (.call .send_display_name), .time tc,
          .write cfd (mkHeader (Int.ofNat nc.length) tc) 12 12,
          .write cfd nc nc.length (Int.ofNat nc.length)],
         mkHeader (Int.ofNat nc.length) tc ++ nc,
         .ret (ns ++ [0],
           loadTime (load (store (store cbuf 0 (mkHeader (Int.ofNat ns.length) ts)) 12 ns) 0 8),
           store (store cbuf 0 (mkHeader (Int.ofNat ns.length) ts)) 12 ns),
         ⟨[], eof, [], []⟩⟩ := by
  obtain ⟨hss, hsi, hss1, hsi1, hsi2, hsL, -, hsp⟩ := len_facts ns.length hs2
  obtain ⟨hcs, hci, -, -, -, -, hclt, hcp⟩ := len_facts nc.length hc2
  have hsz := ne_nil_of_length_pos ns hs1
  have hcz := ne_nil_of_length_pos nc hc1
  have hcl := strlen_append_nul nc [] hc0
  have hg := load_store_header_field cbuf (ns.length : Int) ts (by omega)
  have hg1 := load_store_before (store cbuf 0 (mkHeader (ns.length : Int) ts)) 12 ns 8 4
    (by omega) (by rw [store_length _ _ _ (by omega), hr]; omega)
  have hg2 := payload_in_databuf cbuf ns (ns.length : Int) ts hs2 hr
  have ht : List.take 1024 ns = ns := List.take_of_length_le (by omega)
  have hd : List.drop 1024 ns = [] := List.drop_of_length_le (by omega)
  unfold Client.handshake Client.send_display_name Client.receive_server_display_name
  conv_lhs =>
    simp [emit, sys_time, sys_write, sys_read, MAX_MSG_LEN, MSG_HEADER_LEN,
      MSGLEN_HDRFIELD_OFFSET, MSG_BUF_LEN, toInt32_12, errprintf_and_exit, load_zero,
      mkHeader_length, advance_read, mkHeader_ne_nil, take_header, drop_header, ReadRes.bytes,
      ReadRes.ret, hss, hsi, hss1, hsi1, hsi2, hsL, hsp, hcs, hci, hclt, hcp, hsz, hcz, hcl,
      hg, hg1, hg2, ht, hd]
  exact Eq.refl _

theorem ended_read {α : Type} (fd : Int) (n : Nat) (k : ReadRes → Proc α) :
    (Proc.read fd n k).ended = false := by
  unfold Proc.ended
  exact Eq.refl _

theorem ended_ret {α : Type} (a : α) : (Proc.ret a).ended = true := by
  unfold Proc.ended
  exact Eq.refl _

theorem client_handshake_not_ended (argv3 cbuf : List Nat) (cfd : Int) :
    (Client.handshake argv3 cfd cbuf).ended = false := by
  unfold Client.handshake Client.receive_server_display_name
  simp [emit, Proc.ended]

/-- C7, as amended: a server started with the display name `ns` and a client started with
the display name `nc`, both names texts of 1 to 1023 bytes, connected back-to-back by
streams that deliver every requested byte.  The server's socket calls through the
handshake are two writes (header, name) and then two reads; the client's are two reads and
then two writes; and when both have finished the handshake the server holds `nc` and the
client holds `ns` (each as a NUL-terminated allocation). -/
theorem handshake_back_to_back (ns nc buf cbuf : List Nat) (sfd cfd : Int) (ts tc : Int)
    (hs1 : 1 ≤ ns.length) (hs2 : ns.length ≤ 1023) (hs0 : ∀ b ∈ ns, b ≠ 0)
    (hc1 : 1 ≤ nc.length) (hc2 : nc.length ≤ 1023) (hc0 : ∀ b ∈ nc, b ≠ 0)
    (hb : buf.length = 1036) (hr : cbuf.length = 1036) :
    Server.heldName (Link.start (Server.handshake (ns ++ [0]) sfd buf)
      (Client.handshake (nc ++ [0]) cfd cbuf) [] [] [ts] [tc]).round.round.server
        = some (nc ++ [0]) ∧
    Client.heldName (Link.start (Server.handshake (ns ++ [0]) sfd buf)
      (Client.handshake (nc ++ [0]) cfd cbuf) [] [] [ts] [tc]).round.round.client
        = some (ns ++ [0]) ∧
    ioOrder (Link.start (Server.handshake (ns ++ [0]) sfd buf)
      (Client.handshake (nc ++ [0]) cfd cbuf) [] [] [ts] [tc]).round.round.serverTrace
        = [true, true, false, false] ∧
    ioOrder (Link.start (Server.handshake (ns ++ [0]) sfd buf)
      (Client.handshake (nc ++ [0]) cfd cbuf) [] [] [ts] [tc]).round.round.clientTrace
        = [false, false, true, true] := by
  obtain ⟨k, h1, h2⟩ := server_handshake_phases ns nc buf sfd ts tc hs1 hs2 hs0 hc1 hc2 hb
  have hc := client_handshake_adv ns nc cbuf cfd ts tc false hs1 hs2 hc1 hc2 hc0 hr
  have he := client_handshake_not_ended (nc ++ [0]) cbuf cfd
  have hround1 : (Link.start (Server.handshake (ns ++ [0]) sfd buf)
      (Client.handshake (nc ++ [0]) cfd cbuf) [] [] [ts] [tc]).round
      = ⟨Proc.read sfd 12 k,
         .ret (ns ++ [0],
           loadTime (load (store (store cbuf 0 (mkHeader (Int.ofNat ns.length) ts)) 12 ns) 0 8),
           store (store cbuf 0 (mkHeader (Int.ofNat ns.length) ts)) 12 ns),
         mkHeader (Int.ofNat nc.length) tc ++ nc, [], [], [], [], [],
         [.act (.call .send_display_name), .time ts,
          .write sfd (mkHeader (Int.ofNat ns.length) ts) 12 12,
          .write sfd ns ns.length (Int.ofNat ns.length),
          .act (.call .receive_client_display_name)],
         [.act (.call .receive_server_display_name),
          .read cfd 12 (.data (mkHeader (Int.ofNat ns.length) ts)),
          .read cfd 1024 (.data ns),
          .act (.malloc (ns.length + 1)),
          .act (.call .send_display_name), .time tc,
          .write cfd (mkHeader (Int.ofNat nc.length) tc) 12 12,
          .write cfd nc nc.length (Int.ofNat nc.length)]⟩ := by
    unfold Link.round Link.start
    simp only [he, h1, List.nil_append, ended_read, hc]
  rw [hround1]
  unfold Link.round
  simp only [ended_ret, List.nil_append, h2, advance_ret, List.append_nil, List.cons_append]
  exact ⟨Eq.refl _, Eq.refl _, Eq.refl _, Eq.refl _⟩

/-- Witness of `handshake_back_to_back`: the server `Bob` and the client `Alice`. -/
theorem handshake_back_to_back_witness :
    Server.heldName (Link.start (Server.handshake (bytesOf "Bob" ++ [0]) 4
        (List.replicate 1036 0))
      (Client.handshake (bytesOf "Alice" ++ [0]) 3 (List.replicate 1036 0))
      [] [] [7] [9]).round.round.server = some (bytesOf "Alice" ++ [0]) ∧
    Client.heldName (Link.start (Server.handshake (bytesOf "Bob" ++ [0]) 4
        (List.replicate 1036 0))
      (Client.handshake (bytesOf "Alice" ++ [0]) 3 (List.replicate 1036 0))
      [] [] [7] [9]).round.round.client = some (bytesOf "Bob" ++ [0]) ∧
    ioOrder (Link.start (Server.handshake (bytesOf "Bob" ++ [0]) 4
        (List.replicate 1036 0))
      (Client.handshake (bytesOf "Alice" ++ [0]) 3 (List.replicate 1036 0))
      [] [] [7] [9]).round.round.serverTrace = [true, true, false, false] ∧
    ioOrder (Link.start (Server.handshake (bytesOf "Bob" ++ [0]) 4
        (List.replicate 1036 0))
      (Client.handshake (bytesOf "Alice" ++ [0]) 3 (List.replicate 1036 0))
      [] [] [7] [9]).round.round.clientTrace = [false, false, true, true] :=
  handshake_back_to_back (bytesOf "Bob") (bytesOf "Alice") (List.replicate 1036 0)
    (List.replicate 1036 0) 4 3 7 9 (by decide) (by decide) (by decide) (by decide)
    (by decide) (by decide) (List.length_replicate _ _) (List.length_replicate _ _)

/-- C7, counterexample: a server started with a display name of 1024 bytes.  Its name
frame carries the first 1023 bytes only, so after the handshake the client holds a name
that is not the name the server was started with. -/
theorem long_name_is_not_held :
    Client.heldName (Link.start (Server.handshake (List.replicate 1024 97 ++ [0]) 4
        (List.replicate 1036 0))
      (Client.handshake (bytesOf "Alice" ++ [0]) 3 (List.replicate 1036 0))
      [] [] [7] [9]).round.round.client = some (List.replicate 1023 97 ++ [0]) ∧
    Client.heldName (Link.start (Server.handshake (List.replicate 1024 97 ++ [0]) 4
        (List.replicate 1036 0))
      (Client.handshake (bytesOf "Alice" ++ [0]) 3 (List.replicate 1036 0))
      [] [] [7] [9]).round.round.client ≠ some (List.replicate 1024 97 ++ [0]) ∧
    Server.heldName (Link.start (Server.handshake (List.replicate 1024 97 ++ [0]) 4
        (List.replicate 1036 0))
      (Client.handshake (bytesOf "Alice" ++ [0]) 3 (List.replicate 1036 0))
      [] [] [7] [9]).round.round.server = some (bytesOf "Alice" ++ [0]) := by
  decide!

/-! ## The empty frame -/

theorem storeInt32_zero : storeInt32 0 = [0, 0, 0, 0] := by decide

theorem loadInt32_zero : loadInt32 [0, 0, 0, 0] = 0 := by decide

theorem toSizeT_zero : toSizeT 0 = 0 := by decide

/-- The client's `receive_msg` on a stream that holds a header with payload length 0:
it asks for 0 payload bytes and returns 0. -/
theorem client_receive_msg_empty_adv (fd : Int) (more buf : List Nat) (eof : Bool)
    (ls : List (List Nat)) (t : Int) (cl : List Int) (hb : buf.length = 1036) :
    advance (Client.receive_msg fd buf) ⟨mkHeader 0 t ++ more, eof, ls, cl⟩
      = ⟨[.act (.call .receive_msg), .read fd 12 (.data (mkHeader 0 t)),
          .read fd 0 (.data [])],
         [], .ret (0, store (store (memset0 buf 1036) 0 (mkHeader 0 t)) 12 []),
         ⟨more, eof, ls, cl⟩⟩ := by
  have hm : (memset0 buf 1036).length = 1036 := by rw [memset0_length, hb]
  have hf := load_store_header_field (memset0 buf 1036) 0 t (by omega)
  unfold Client.receive_msg
  simp [emit, sys_read, MSG_HEADER_LEN, MSGLEN_HDRFIELD_OFFSET, DATA_BUFFER_LEN, advance_read,
    mkHeader_ne_nil, take_header, drop_header, ReadRes.bytes, ReadRes.ret, mkHeader_length,
    toInt32_12, hf, storeInt32_zero, loadInt32_zero, toSizeT_zero, toInt32_zero]

/-- The client's `receive_msg` on a stream the peer has closed: the header `read` returns
0 and so does the function. -/
theorem client_receive_msg_closed_adv (fd : Int) (buf : List Nat) (ls : List (List Nat))
    (cl : List Int) :
    advance (Client.receive_msg fd buf) ⟨[], true, ls, cl⟩
      = ⟨[.act (.call .receive_msg), .read fd 12 (.data [])],
         [], .ret (0, store (memset0 buf 1036) 0 []), ⟨[], true, ls, cl⟩⟩ := by
  unfold Client.receive_msg
  simp [emit, sys_read, MSG_HEADER_LEN, DATA_BUFFER_LEN, advance_read,
    ReadRes.bytes, ReadRes.ret, toInt32_zero]

theorem server_receive_client_message_empty_adv (fd : Int) (more buf : List Nat) (eof : Bool)
    (ls : List (List Nat)) (t : Int) (cl : List Int) (hb : buf.length = 1036) :
    advance (Server.receive_client_message fd buf) ⟨mkHeader 0 t ++ more, eof, ls, cl⟩
      = ⟨[.act (.call .receive_client_message), .read fd 12 (.data (mkHeader 0 t)),
          .read fd 0 (.data [])],
         [], .ret (0, store (store (memset0 buf 1036) 0 (mkHeader 0 t)) 12 []),
         ⟨more, eof, ls, cl⟩⟩ := by
  have hm : (memset0 buf 1036).length = 1036 := by rw [memset0_length, hb]
  have hf := load_store_header_field (memset0 buf 1036) 0 t (by omega)
  unfold Server.receive_client_message
  simp [emit, sys_read, MSG_HEADER_LEN, MSGLEN_HDRFIELD_OFFSET, DATA_BUFFER_LEN, advance_read,
    mkHeader_ne_nil, take_header, drop_header, ReadRes.bytes, ReadRes.ret, mkHeader_length,
    toInt32_12, hf, storeInt32_zero, loadInt32_zero, toSizeT_zero, toInt32_zero]

theorem server_receive_client_message_closed_adv (fd : Int) (buf : List Nat)
    (ls : List (List Nat)) (cl : List Int) :
    advance (Server.receive_client_message fd buf) ⟨[], true, ls, cl⟩
      = ⟨[.act (.call .receive_client_message), .read fd 12 (.data [])],
         [], .ret (0, store (memset0 buf 1036) 0 []), ⟨[], true, ls, cl⟩⟩ := by
  unfold Server.receive_client_message
  simp [emit, sys_read, MSG_HEADER_LEN, DATA_BUFFER_LEN, advance_read,
    ReadRes.bytes, ReadRes.ret, toInt32_zero]

theorem adv_cons_eq {α : Type} (e : Ev) (a : Adv α) :
    a.cons e = ⟨e :: a.trace, a.sent, a.next, a.chan⟩ := by
  unfold Adv.cons
  exact Eq.refl _

theorem adv_send_eq {α : Type} (d : List Nat) (a : Adv α) :
    a.send d = ⟨a.trace, d ++ a.sent, a.next, a.chan⟩ := by
  unfold Adv.send
  exact Eq.refl _

/-- Sequencing on a stream: a first part that returns, followed by the rest. -/
theorem advance_bind_ret {α β : Type} (p : Proc α) (f : α → Proc β) (a : α)
    (ch ch1 ch2 : Chan) (tr1 tr2 : List Ev) (d1 d2 : List Nat) (nx : Proc β)
    (h1 : advance p ch = ⟨tr1, d1, .ret a, ch1⟩)
    (h2 : advance (f a) ch1 = ⟨tr2, d2, nx, ch2⟩) :
    advance (p >>= f) ch = ⟨tr1 ++ tr2, d1 ++ d2, nx, ch2⟩ := by
  induction p generalizing ch tr1 d1 with
  | ret a' =>
    rw [advance_ret] at h1
    injection h1 with e1 e2 e3 e4
    injection e3 with e3
    subst e1 e2 e3 e4
    rw [bind_ret, h2]
    exact Eq.refl _
  | exit c =>
    rw [advance_exit] at h1
    injection h1 with e1 e2 e3 e4
    exact Proc.noConfusion e3
  | spin =>
    rw [advance_spin] at h1
    injection h1 with e1 e2 e3 e4
    exact Proc.noConfusion e3
  | act e k ih =>
    rw [advance_act, adv_cons_eq] at h1
    injection h1 with e1 e2 e3 e4
    subst e1
    rw [bind_act, advance_act, adv_cons_eq,
      ih ch (advance k ch).trace d1 (by rw [← e2, ← e3, ← e4])]
    exact Eq.refl _
  | read fd n k ih =>
    obtain ⟨inbox, eof, ls, cl⟩ := ch
    by_cases hc : n = 0 ∨ inbox ≠ [] ∨ eof = true
    · rw [advance_read fd n k inbox eof ls cl hc, adv_cons_eq] at h1
      injection h1 with e1 e2 e3 e4
      subst e1
      rw [bind_read, advance_read fd n _ inbox eof ls cl hc, adv_cons_eq,
        ih _ _ _ d1 (by rw [← e2, ← e3, ← e4])]
      exact Eq.refl _
    · rw [advance, if_neg hc] at h1
      injection h1 with e1 e2 e3 e4
      exact Proc.noConfusion e3
  | write fd d n k ih =>
    by_cases hw : n ≤ d.length
    · rw [advance_write _ _ _ _ _ hw, adv_cons_eq, adv_send_eq] at h1
      injection h1 with e1 e2 e3 e4
      subst e1 e2
      rw [bind_write, advance_write _ _ _ _ _ hw, adv_cons_eq, adv_send_eq,
        ih _ ch (advance (k _) ch).trace (advance (k _) ch).sent (by rw [← e3, ← e4])]
      simp only [List.cons_append, List.append_assoc]
    · have hw1 : d.length < n := Nat.lt_of_not_le hw
      rw [advance_write_fault _ _ _ _ _ hw1, adv_cons_eq] at h1
      injection h1 with e1 e2 e3 e4
      subst e1
      rw [bind_write, advance_write_fault _ _ _ _ _ hw1, adv_cons_eq,
        ih _ _ _ d1 (by rw [← e2, ← e3, ← e4])]
      exact Eq.refl _
  | fgets n k ih =>
    obtain ⟨inbox, eof, ls, cl⟩ := ch
    rw [advance_fgets, adv_cons_eq] at h1
    injection h1 with e1 e2 e3 e4
    subst e1
    rw [bind_fgets, advance_fgets, adv_cons_eq, ih _ _ _ d1 (by rw [← e2, ← e3, ← e4])]
    exact Eq.refl _
  | time k ih =>
    obtain ⟨inbox, eof, ls, cl⟩ := ch
    rw [advance_time, adv_cons_eq] at h1
    injection h1 with e1 e2 e3 e4
    subst e1
    rw [bind_time, advance_time, adv_cons_eq, ih _ _ _ d1 (by rw [← e2, ← e3, ← e4])]
    exact Eq.refl _


theorem strlen_le_length (l : List Nat) : strlen l ≤ l.length := by
  induction l with
  | nil => exact Nat.le_refl _
  | cons c cs ih =>
    unfold strlen
    split
    · exact Nat.zero_le _
    · rw [List.length_cons]
      omega

/-- The `write` of a prompted message asks for the 12 header bytes and the text, which
lie within the data buffer, so that on a stream that takes every byte it returns a
positive value. -/
theorem prompt_write_pos (b : List Nat) (t : Int) (hb : b.length = 1036) :
    0 < toInt32 (Int.ofNat (load (store (store b MSGLEN_HDRFIELD_OFFSET
        (storeInt32 (toInt32 (Int.ofNat (strlen (b.drop MSG_HEADER_LEN)))))) 0 (storeTime t)) 0
      (toSizeT (Int.ofNat MSG_HEADER_LEN
        + toInt32 (Int.ofNat (strlen (b.drop MSG_HEADER_LEN)))))).length) := by
  have hs := strlen_le_length (b.drop MSG_HEADER_LEN)
  rw [List.length_drop, hb] at hs
  generalize strlen (b.drop MSG_HEADER_LEN) = s at hs ⊢
  unfold MSG_HEADER_LEN at hs
  have h1 : toInt32 (Int.ofNat s) = (s : Int) := toInt32_natCast s (by omega)
  have h2 : toSizeT (Int.ofNat MSG_HEADER_LEN + (s : Int)) = 12 + s := by
    have h := toSizeT_natCast (12 + s) (by omega)
    rw [Nat.cast_add] at h
    exact h
  have h3 : (store (store b MSGLEN_HDRFIELD_OFFSET (storeInt32 (s : Int))) 0
      (storeTime t)).length = 1036 := by
    rw [store_length _ _ _ (Nat.zero_le _), store_length _ _ _ (by rw [hb]; decide), hb]
  have h4 : min (12 + s) 1036 = 12 + s := by omega
  have h5 : toInt32 (Int.ofNat (12 + s)) = ((12 + s : Nat) : Int) :=
    toInt32_natCast (12 + s) (by omega)
  rw [h1, h2, load_zero, List.length_take, h3, h4, h5]
  omega

/-- The `write` of a prompted message asks for bytes that lie within the data buffer. -/
theorem prompt_write_fits (b : List Nat) (t : Int) (hb : b.length = 1036) :
    toSizeT (Int.ofNat MSG_HEADER_LEN + toInt32 (Int.ofNat (strlen (b.drop MSG_HEADER_LEN))))
      ≤ (load (store (store b MSGLEN_HDRFIELD_OFFSET
        (storeInt32 (toInt32 (Int.ofNat (strlen (b.drop MSG_HEADER_LEN)))))) 0 (storeTime t)) 0
      (toSizeT (Int.ofNat MSG_HEADER_LEN
        + toInt32 (Int.ofNat (strlen (b.drop MSG_HEADER_LEN)))))).length := by
  have hs := strlen_le_length (b.drop MSG_HEADER_LEN)
  rw [List.length_drop, hb] at hs
  generalize strlen (b.drop MSG_HEADER_LEN) = s at hs ⊢
  unfold MSG_HEADER_LEN at hs
  have h1 : toInt32 (Int.ofNat s) = (s : Int) := toInt32_natCast s (by omega)
  have h2 : toSizeT (Int.ofNat MSG_HEADER_LEN + (s : Int)) = 12 + s := by
    have h := toSizeT_natCast (12 + s) (by omega)
    rw [Nat.cast_add] at h
    exact h
  have h3 : (store (store b MSGLEN_HDRFIELD_OFFSET (storeInt32 (s : Int))) 0
      (storeTime t)).length = 1036 := by
    rw [store_length _ _ _ (Nat.zero_le _), store_length _ _ _ (by rw [hb]; decide), hb]
  rw [h1, h2, load_zero, List.length_take, h3]
  omega

theorem prompt_buffer_length (buf : List Nat) (r : Option (List Nat)) (hb : buf.length = 1036) :
    (match r with
      | some line => store (memset0 buf DATA_BUFFER_LEN) MSG_HEADER_LEN (line ++ [0])
      | none => memset0 buf DATA_BUFFER_LEN).length = 1036 := by
  cases r with
  | none => rw [memset0_length, hb]
  | some line => rw [store_length _ _ _ (by rw [memset0_length, hb]; decide), memset0_length, hb]

/-- The client's `prompt_and_send_msg` on a stream that takes every byte returns a
positive value, whatever the console delivers. -/
theorem client_prompt_and_send_msg_adv (fd : Int) (inbox : List Nat) (eof : Bool)
    (ls : List (List Nat)) (cl : List Int) (buf : List Nat) (hb : buf.length = 1036) :
    ∃ tr d n b, 0 < n ∧ b.length = 1036 ∧ tr.any Ev.errorPrint = false ∧
      tr.any Ev.disconnectPrint = false ∧
      advance (Client.prompt_and_send_msg fd buf) ⟨inbox, eof, ls, cl⟩
        = ⟨tr, d, .ret (n, b), ⟨inbox, eof, ls.tail, cl.tail⟩⟩ := by
  unfold Client.prompt_and_send_msg
  have hl := prompt_buffer_length buf (fgetsRes MAX_MSG_LEN ls) hb
  simp only [emit, sys_fgets, sys_time, sys_write, pure_eq_ret, bind_ret, bind_act, bind_fgets,
    bind_time, bind_write, advance_act, advance_fgets, advance_time]
  rw [advance_write _ _ _ _ _ (prompt_write_fits _ _ hl)]
  simp only [advance_ret, adv_cons_mk, adv_send_mk]
  refine ⟨_, _, _, _, ?_, ?_, ?_, ?_, Eq.refl _⟩
  · exact prompt_write_pos _ _ hl
  · exact (store_length _ _ _ (Nat.zero_le _)).trans
      ((store_length _ _ _ (le_of_le_of_eq (by decide) hl.symm)).trans hl)
  · simp [Ev.errorPrint, Msg.isError]
  · simp [Ev.disconnectPrint]

theorem server_prompt_and_message_client_adv (fd : Int) (inbox : List Nat) (eof : Bool)
    (ls : List (List Nat)) (cl : List Int) (buf : List Nat) (hb : buf.length = 1036) :
    ∃ tr d n b, 0 < n ∧ b.length = 1036 ∧ tr.any Ev.errorPrint = false ∧
      tr.any Ev.disconnectPrint = false ∧
      advance (Server.prompt_and_message_client fd buf) ⟨inbox, eof, ls, cl⟩
        = ⟨tr, d, .ret (n, b), ⟨inbox, eof, ls.tail, cl.tail⟩⟩ := by
  unfold Server.prompt_and_message_client
  have hl := prompt_buffer_length buf (fgetsRes MAX_MSG_LEN ls) hb
  simp only [emit, sys_fgets, sys_time, sys_write, pure_eq_ret, bind_ret, bind_act, bind_fgets,
    bind_time, bind_write, advance_act, advance_fgets, advance_time]
  rw [advance_write _ _ _ _ _ (prompt_write_fits _ _ hl)]
  simp only [advance_ret, adv_cons_mk, adv_send_mk]
  refine ⟨_, _, _, _, ?_, ?_, ?_, ?_, Eq.refl _⟩
  · exact prompt_write_pos _ _ hl
  · exact (store_length _ _ _ (Nat.zero_le _)).trans
      ((store_length _ _ _ (le_of_le_of_eq (by decide) hl.symm)).trans hl)
  · simp [Ev.errorPrint, Msg.isError]
  · simp [Ev.disconnectPrint]

theorem server_disconnected_client_adv (fd : Int) (g : Globals) (ch : Chan) :
    ∃ tr, tr.any Ev.disconnectPrint = true ∧ tr.any Ev.errorPrint = false ∧
      advance (Server.disconnected_client fd g) ch = ⟨tr, [], .ret 0, ch⟩ := by
  obtain ⟨name, sockfd⟩ := g
  unfold Server.disconnected_client
  by_cases hfd : (-1 : Int) ≠ sockfd
  · cases name <;>
      simp only [emit, pure_eq_ret, bind_ret, bind_act, if_pos hfd, advance_act, advance_ret,
        adv_cons_mk] <;>
      refine ⟨_, ?_, ?_, Eq.refl _⟩ <;>
      simp [Ev.disconnectPrint, Ev.errorPrint, Msg.isError]
  · cases name <;>
      simp only [emit, pure_eq_ret, bind_ret, bind_act, if_neg hfd, advance_act, advance_ret,
        adv_cons_mk] <;>
      refine ⟨_, ?_, ?_, Eq.refl _⟩ <;>
      simp [Ev.disconnectPrint, Ev.errorPrint, Msg.isError]

/-- The server's loop when `receive_client_message` returns 0: the session ends as a
disconnection. -/
theorem server_loop_of_receive_zero (fuel : Nat) (fd : Int) (g : Globals) (buf b : List Nat)
    (ch ch1 : Chan) (tr1 : List Ev)
    (h1 : advance (Server.receive_client_message fd buf) ch = ⟨tr1, [], .ret (0, b), ch1⟩)
    (he : tr1.any Ev.errorPrint = false) :
    EndsAsDisconnect (advance (Server.loop (fuel + 1) fd g buf) ch) := by
  obtain ⟨tr2, hd, he2, h2⟩ := server_disconnected_client_adv fd g ch1
  have key : advance (Server.loop (fuel + 1) fd g buf) ch
      = ⟨tr1 ++ tr2, [] ++ [], .ret 0, ch1⟩ := by
    rw [server_loop_succ]
    refine advance_bind_ret _ _ (0, b) ch ch1 ch1 tr1 tr2 [] [] _ h1 ?_
    simp only [gt_iff_lt, lt_self_iff_false, if_false, if_true]
    exact h2
  rw [key]
  refine ⟨Eq.refl _, ?_, ?_⟩
  · rw [List.any_append, hd, Bool.or_true]
  · rw [List.any_append, he, he2]
    exact Eq.refl _

theorem client_after_loop_adv (fd : Int) (sdn : List Nat) (ch : Chan) :
    advance (Client.after_loop fd sdn) ch
      = ⟨[.act (.print (.disconnected (cstr sdn))), .act (.close fd), .act (.free sdn)], [],
         .exit 0, ch⟩ := by
  unfold Client.after_loop
  simp only [emit, bind_act, bind_ret, advance_act, advance_exit, adv_cons_mk]

/-- The client's loop when, after the message has been sent, `receive_msg` returns 0: the
session ends as a disconnection. -/
theorem client_loop_of_receive_zero (fuel : Nat) (fd : Int) (sdn buf : List Nat)
    (inbox : List Nat) (eof : Bool) (ls : List (List Nat)) (cl : List Int)
    (hb : buf.length = 1036)
    (hrecv : ∀ b1 : List Nat, b1.length = 1036 → ∃ tr b ch2, tr.any Ev.errorPrint = false ∧
      advance (Client.receive_msg fd b1) ⟨inbox, eof, ls.tail, cl.tail⟩
        = ⟨tr, [], .ret (0, b), ch2⟩) :
    EndsAsDisconnect (advance (Client.loop (fuel + 1) fd sdn buf) ⟨inbox, eof, ls, cl⟩) := by
  obtain ⟨tr1, d1, n, b1, hn, hb1, he1, -, h1⟩ :=
    client_prompt_and_send_msg_adv fd inbox eof ls cl buf hb
  obtain ⟨tr2, b2, ch2, he2, h2⟩ := hrecv b1 hb1
  have key : advance (Client.loop (fuel + 1) fd sdn buf) ⟨inbox, eof, ls, cl⟩
      = ⟨tr1 ++ (.act (.print .waitingResponse) :: (tr2 ++
          [.act (.print (.disconnected (cstr sdn))), .act (.close fd), .act (.free sdn)])),
         d1 ++ ([] ++ []), .exit 0, ch2⟩ := by
    rw [client_loop_succ]
    refine advance_bind_ret _ _ (n, b1) _ _ ch2 tr1 _ d1 _ _ h1 ?_
    have hn1 : ¬ (0 > n) := by omega
    have hn2 : ¬ (n = 0) := by omega
    simp only [if_neg hn1, if_neg hn2, emit, bind_act, bind_ret, advance_act]
    refine (congrArg (Adv.cons _)
      (advance_bind_ret _ _ (0, b2) _ _ ch2 tr2 _ [] [] _ h2 ?_)).trans (adv_cons_mk _ _ _ _ _)
    simp only [gt_iff_lt, lt_self_iff_false, if_false, if_true]
    exact client_after_loop_adv fd sdn ch2
  rw [key]
  refine ⟨Eq.refl _, ?_, ?_⟩
  · simp [Ev.disconnectPrint]
  · simp [he1, he2, Ev.errorPrint, Msg.isError]

theorem memset0_all (buf : List Nat) (hb : buf.length = 1036) :
    memset0 buf DATA_BUFFER_LEN = List.replicate 1036 0 := by
  unfold memset0 DATA_BUFFER_LEN
  rw [hb, List.drop_of_length_le (by omega), List.append_nil, Nat.min_self]

theorem strlen_zeroed (buf : List Nat) (hb : buf.length = 1036) :
    strlen (List.drop MSG_HEADER_LEN (memset0 buf DATA_BUFFER_LEN)) = 0 := by
  rw [memset0_all buf hb, List.drop_replicate]
  show strlen (List.replicate (1023 + 1) 0) = 0
  rw [List.replicate_succ, strlen, if_pos (Eq.refl 0)]

/-- The first 12 bytes of a buffer in which the two header fields have been stored. -/
theorem take_stored_header (m : List Nat) (len t : Int) (hm : 12 ≤ m.length) :
    load (store (store m MSGLEN_HDRFIELD_OFFSET (storeInt32 len)) 0 (storeTime t)) 0 12
      = mkHeader len t := by
  have h8 : (store m MSGLEN_HDRFIELD_OFFSET (storeInt32 len)).length = m.length :=
    store_length _ _ _ (by unfold MSGLEN_HDRFIELD_OFFSET; omega)
  have h1 : (m.take MSGLEN_HDRFIELD_OFFSET).length = 8 := by
    rw [List.length_take]
    unfold MSGLEN_HDRFIELD_OFFSET
    omega
  rw [mkHeader_eq, load_zero, store_eq _ 0 _ (by rw [storeTime_length, h8]; omega),
    store_eq m _ _ (by rw [storeInt32_length]; unfold MSGLEN_HDRFIELD_OFFSET; omega),
    List.take_zero, List.nil_append, Nat.zero_add, storeTime_length,
    List.append_assoc (m.take _), List.drop_left' h1, ← List.append_assoc,
    List.take_left' (by rw [List.length_append, storeTime_length, storeInt32_length])]

theorem header_count_facts :
    toInt32 (Int.ofNat 0) = 0 ∧ toSizeT (Int.ofNat MSG_HEADER_LEN + 0) = 12 ∧
    toInt32 (Int.ofNat 12) = 12 := by
  decide

/-- The client's `prompt_and_send_msg` when the console is at end of file: it frames a
message of length 0, that is, it writes a header with payload length 0 and nothing else. -/
theorem client_prompt_eof_adv (fd : Int) (inbox : List Nat) (eof : Bool) (cl : List Int)
    (buf : List Nat) (hb : buf.length = 1036) :
    ∃ b, advance (Client.prompt_and_send_msg fd buf) ⟨inbox, eof, [], cl⟩
      = ⟨[.act (.call .prompt_and_send_msg), .act (.print .prompt), .fgets 1023 none,
          .time (cl.headD 0), .write fd (mkHeader 0 (cl.headD 0)) 12 12],
         mkHeader 0 (cl.headD 0), .ret (12, b), ⟨inbox, eof, [], cl.tail⟩⟩ := by
  have hm : 12 ≤ (memset0 buf DATA_BUFFER_LEN).length := by rw [memset0_length, hb]; omega
  unfold Client.prompt_and_send_msg
  simp only [emit, sys_fgets, sys_time, sys_write, pure_eq_ret, bind_ret, bind_act, bind_fgets,
    bind_time, bind_write, advance_act, advance_fgets, advance_time, fgetsRes,
    strlen_zeroed buf hb, header_count_facts.1, header_count_facts.2.1,
    take_stored_header _ _ _ hm]
  rw [advance_write _ _ _ _ _ (le_of_eq (mkHeader_length _ _).symm)]
  simp only [advance_ret, adv_cons_mk, adv_send_mk, mkHeader_length, header_count_facts.2.2,
    List.append_nil, List.tail_nil]
  exact ⟨_, Eq.refl _⟩

theorem server_prompt_eof_adv (fd : Int) (inbox : List Nat) (eof : Bool) (cl : List Int)
    (buf : List Nat) (hb : buf.length = 1036) :
    ∃ b, advance (Server.prompt_and_message_client fd buf) ⟨inbox, eof, [], cl⟩
      = ⟨[.act (.call .prompt_and_message_client), .act (.print .prompt), .fgets 1023 none,
          .time (cl.headD 0), .write fd (mkHeader 0 (cl.headD 0)) 12 12],
         mkHeader 0 (cl.headD 0), .ret (12, b), ⟨inbox, eof, [], cl.tail⟩⟩ := by
  have hm : 12 ≤ (memset0 buf DATA_BUFFER_LEN).length := by rw [memset0_length, hb]; omega
  unfold Server.prompt_and_message_client
  simp only [emit, sys_fgets, sys_time, sys_write, pure_eq_ret, bind_ret, bind_act, bind_fgets,
    bind_time, bind_write, advance_act, advance_fgets, advance_time, fgetsRes,
    strlen_zeroed buf hb, header_count_facts.1, header_count_facts.2.1,
    take_stored_header _ _ _ hm]
  rw [advance_write _ _ _ _ _ (le_of_eq (mkHeader_length _ _).symm)]
  simp only [advance_ret, adv_cons_mk, adv_send_mk, mkHeader_length, header_count_facts.2.2,
    List.append_nil, List.tail_nil]
  exact ⟨_, Eq.refl _⟩

/-- C11: on a stream that holds a header with payload length 0 (whatever follows it),
`receive_msg` and `receive_client_message` return 0, the value they return on a stream the
peer has closed; in both cases the loop of the server, and the loop of the client once it
has sent its message, ends the session as a disconnection (status 0, the disconnected
line, no error).  On a stream that holds a header with payload length `n` between 1 and
1023 and the `n` bytes `p`, both functions return `n`.  A sender whose console is at end of
file writes exactly such a frame: a header with payload length 0 and no payload. -/
theorem empty_frame_reads_as_disconnect (fuel : Nat) (fd : Int) (g : Globals)
    (sdn p more buf : List Nat) (eof : Bool) (ls : List (List Nat)) (t : Int) (cl : List Int)
    (hb : buf.length = 1036) (h1 : 1 ≤ p.length) (h2 : p.length ≤ 1023) :
    (∃ b, (advance (Client.receive_msg fd buf) ⟨mkHeader 0 t ++ more, eof, ls, cl⟩).next
      = .ret (0, b)) ∧
    (∃ b, (advance (Server.receive_client_message fd buf)
      ⟨mkHeader 0 t ++ more, eof, ls, cl⟩).next = .ret (0, b)) ∧
    (∃ b, (advance (Client.receive_msg fd buf) ⟨[], true, ls, cl⟩).next = .ret (0, b)) ∧
    (∃ b, (advance (Server.receive_client_message fd buf) ⟨[], true, ls, cl⟩).next
      = .ret (0, b)) ∧
    EndsAsDisconnect (advance (Server.loop (fuel + 1) fd g buf)
      ⟨mkHeader 0 t ++ more, eof, ls, cl⟩) ∧
    EndsAsDisconnect (advance (Client.loop (fuel + 1) fd sdn buf)
      ⟨mkHeader 0 t ++ more, eof, ls, cl⟩) ∧
    EndsAsDisconnect (advance (Server.loop (fuel + 1) fd g buf) ⟨[], true, ls, cl⟩) ∧
    EndsAsDisconnect (advance (Client.loop (fuel + 1) fd sdn buf) ⟨[], true, ls, cl⟩) ∧
    (∃ b, (advance (Client.receive_msg fd buf)
      ⟨mkHeader (Int.ofNat p.length) t ++ p ++ more, eof, ls, cl⟩).next
        = .ret (Int.ofNat p.length, b)) ∧
    (∃ b, (advance (Server.receive_client_message fd buf)
      ⟨mkHeader (Int.ofNat p.length) t ++ p ++ more, eof, ls, cl⟩).next
        = .ret (Int.ofNat p.length, b)) ∧
    (advance (Client.prompt_and_send_msg fd buf) ⟨more, eof, [], cl⟩).sent
      = mkHeader 0 (cl.headD 0) ∧
    (advance (Server.prompt_and_message_client fd buf) ⟨more, eof, [], cl⟩).sent
      = mkHeader 0 (cl.headD 0) := by
  have c0 := client_receive_msg_empty_adv fd more buf eof ls t cl hb
  have s0 := server_receive_client_message_empty_adv fd more buf eof ls t cl hb
  have cc := client_receive_msg_closed_adv fd buf ls cl
  have sc := server_receive_client_message_closed_adv fd buf ls cl
  have cn := client_receive_msg_adv fd p more buf eof ls t cl h1 h2 hb
  have sn := server_receive_client_message_adv fd p more buf eof ls t cl h1 h2 hb
  obtain ⟨bc, hpc⟩ := client_prompt_eof_adv fd more eof cl buf hb
  obtain ⟨bs, hps⟩ := server_prompt_eof_adv fd more eof cl buf hb
  refine ⟨⟨_, by rw [c0]⟩, ⟨_, by rw [s0]⟩, ⟨_, by rw [cc]⟩, ⟨_, by rw [sc]⟩,
    server_loop_of_receive_zero fuel fd g buf _ _ _ _ s0 (by simp [Ev.errorPrint]),
    client_loop_of_receive_zero fuel fd sdn buf _ eof ls cl hb ?_,
    server_loop_of_receive_zero fuel fd g buf _ _ _ _ sc (by simp [Ev.errorPrint]),
    client_loop_of_receive_zero fuel fd sdn buf _ true ls cl hb ?_,
    ⟨_, by rw [cn]⟩, ⟨_, by rw [sn]⟩, by rw [hpc], by rw [hps]⟩
  · intro b1 hb1
    exact ⟨_, _, _, by simp [Ev.errorPrint],
      client_receive_msg_empty_adv fd more b1 eof ls.tail t cl.tail hb1⟩
  · intro b1 _
    exact ⟨_, _, _, by simp [Ev.errorPrint], client_receive_msg_closed_adv fd b1 ls.tail cl.tail⟩

/-- Witness of `empty_frame_reads_as_disconnect`: the server that holds the name `Alice`
and the client that holds the name `Bob`, and the message `hi`. -/
theorem empty_frame_reads_as_disconnect_witness :
    (List.replicate 1036 0).length = 1036 ∧ 1 ≤ (bytesOf "hi\n").length ∧
    (bytesOf "hi\n").length ≤ 1023 ∧
    (∃ b, (advance (Client.receive_msg 4 (List.replicate 1036 0))
      ⟨mkHeader 0 9 ++ [], false, [], [7]⟩).next = .ret (0, b)) ∧
    EndsAsDisconnect (advance (Server.loop (0 + 1) 4
      ⟨some (bytesOf "Alice" ++ [0]), 4⟩ (List.replicate 1036 0))
      ⟨mkHeader 0 9 ++ [], false, [], [7]⟩) :=
  have h := empty_frame_reads_as_disconnect 0 4 ⟨some (bytesOf "Alice" ++ [0]), 4⟩
    (bytesOf "Bob" ++ [0]) (bytesOf "hi\n") [] (List.replicate 1036 0) false [] 9 [7]
    (List.length_replicate _ _) (by decide) (by decide)
  ⟨List.length_replicate _ _, by decide, by decide, h.1, h.2.2.2.2.1⟩

/-! ## Lengths received from the peer -/

/-- C12, the failing input: a header whose `payload_length` field holds 2000.
`receive_msg` and `receive_client_message` ask `read` for 2000 bytes at offset 12 of the
1036-byte data buffer, where 1024 bytes are left; `receive_client_display_name` does the
same and then allocates 2001 bytes to copy 2000 bytes out of the buffer;
`receive_server_display_name` asks for 1024 bytes but allocates 2001 bytes and copies 2000.
With the field holding -1, `receive_msg` asks `read` for 2^64 - 1 bytes. -/
theorem receive_length_exceeds_buffer :
    (run (Client.receive_msg 3 (List.replicate 1036 0))
      ⟨[.data (mkHeader 2000 9), .data (List.replicate 2000 65)], [], [], []⟩).trace
      = [.act (.call .receive_msg), .read 3 12 (.data (mkHeader 2000 9)),
         .read 3 2000 (.data (List.replicate 2000 65))] ∧
    (run (Server.receive_client_message 4 (List.replicate 1036 0))
      ⟨[.data (mkHeader 2000 9), .data (List.replicate 2000 65)], [], [], []⟩).trace
      = [.act (.call .receive_client_message), .read 4 12 (.data (mkHeader 2000 9)),
         .read 4 2000 (.data (List.replicate 2000 65))] ∧
    (run (Server.receive_client_display_name 4 (List.replicate 1036 0))
      ⟨[.data (mkHeader 2000 9), .data (List.replicate 2000 65)], [], [], []⟩).trace
      = [.act (.call .receive_client_display_name), .read 4 12 (.data (mkHeader 2000 9)),
         .read 4 2000 (.data (List.replicate 2000 65)), .act (.malloc 2001)] ∧
    (run (Client.receive_server_display_name 3 (List.replicate 1036 0))
      ⟨[.data (mkHeader 2000 9), .data (List.replicate 1024 65)], [], [], []⟩).trace
      = [.act (.call .receive_server_display_name), .read 3 12 (.data (mkHeader 2000 9)),
         .read 3 1024 (.data (List.replicate 1024 65)), .act (.malloc 2001)] ∧
    (run (Client.receive_msg 3 (List.replicate 1036 0))
      ⟨[.data (mkHeader (-1) 9), .data (List.replicate 1025 65)], [], [], []⟩).trace
      = [.act (.call .receive_msg), .read 3 12 (.data (mkHeader (-1) 9)),
         .read 3 18446744073709551615 (.data (List.replicate 1025 65))] := by
  decide!

/-! ## The frames written -/

end TCPChat
